import Mathlib

/-! The dgm firmware: the cascaded motion controller (`Firmware/Source/controller.c`)

A shallow embedding of `CONTROLLER_move_to_pos`, `move_to_pos`, `CONTROLLER_reset`
and `CONTROLLER_loop`, followed by the properties proved about them.

Conventions of the embedding.

* C `float` values are modelled by exact rationals `ℚ`: rounding, infinities and
  NaN are outside the model.
* The file-scope variables (`Controller`, `mPosSetPoint`, `mVelSetPoint`,
  `mCurrSetPoint`, `vel_integrator`, `input_pos_updated`) and the planner's
  `Traj` are gathered in `State`; the functions pass it explicitly.  The
  `controller` pointer argument is the single instance `Controller`.
* `UsrConfig`, the encoder readings and the anticogging table are read-only
  during a tick and are passed as arguments (`UsrConfigStruct`, `Env`).
* The three locals of `CONTROLLER_loop` (`vel_des`, `current_des`, `v_err`) are
  declared without an initialiser.  Their indeterminate start values are an
  explicit argument of type `Locals`.
* `DT`, `ENCODER_CPR` and `COGGING_MAP_NUM` are compile-time constants defined in
  headers outside `controller.c`; they are the fields of `Consts`.
* C `int` values are mathematical integers; the one `int` product of the file
  (line 172) is reduced to 32 bits, two's complement, by `wrapInt32`, and the `int`
  division truncates towards zero (`Int.tdiv`).
-/

namespace Dgm

/-! ## Constants and helpers defined outside `controller.c` -/

/-- Modelled from the spec: `controller.h` is absent.  The modes form an ordered
enumeration Current < Current-Ramp < Velocity < Velocity-Ramp < Position <
Position-Trapezoidal, numbered from zero. -/
def CONTROL_MODE_CURRENT : Int := 0

/-- Modelled from the spec: second mode of the ordered enumeration. -/
def CONTROL_MODE_CURRENT_RAMP : Int := 1

/-- Modelled from the spec: third mode of the ordered enumeration. -/
def CONTROL_MODE_VELOCITY : Int := 2

/-- Modelled from the spec: fourth mode of the ordered enumeration. -/
def CONTROL_MODE_VELOCITY_RAMP : Int := 3

/-- Modelled from the spec: fifth mode of the ordered enumeration. -/
def CONTROL_MODE_POSITION : Int := 4

/-- Modelled from the spec: sixth mode of the ordered enumeration. -/
def CONTROL_MODE_POSITION_TRAP : Int := 5

/-- Modelled from the spec: the `CLAMP(x, lower, upper)` macro of `util.h`, which
is absent.  It limits `x` to the closed range from `lower` to `upper`, written as
`MIN(upper, MAX(x, lower))`. -/
def CLAMP (x lower upper : ℚ) : ℚ := min upper (max x lower)

/-- The C library function `fabs`. -/
def fabs (x : ℚ) : ℚ := |x|

/-- Compile-time constants used by `CONTROLLER_loop` and defined in other headers:
the tick period `DT`, the encoder counts per revolution and the number of entries
of the anticogging table. -/
structure Consts where
  DT : ℚ
  ENCODER_CPR : Int
  COGGING_MAP_NUM : Int

/-! ## Data model -/

/-- The fields of `UsrConfig` read by the controller. -/
structure UsrConfigStruct where
  control_mode : Int
  current_limit : ℚ
  current_ramp_rate : ℚ
  vel_limit : ℚ
  vel_ramp_rate : ℚ
  inertia : ℚ
  pos_gain : ℚ
  vel_gain : ℚ
  vel_integrator_gain : ℚ
  traj_vel : ℚ
  traj_accel : ℚ
  traj_decel : ℚ
  anticogging_enable : Bool

/-- The demand inputs of `ControllerStruct`. -/
structure ControllerStruct where
  input_position : ℚ
  input_velocity : ℚ
  input_current : ℚ
deriving DecidableEq

/-- The planner's `Traj` object: the last evaluated point `Y`, `Yd`, `Ydd`, the
planned duration `Tf_`, the elapsed time `t`, the completion flag, and the
planner's private description of the planned curve (`profile`). -/
structure TrajStruct where
  Y : ℚ
  Yd : ℚ
  Ydd : ℚ
  Tf_ : ℚ
  t : ℚ
  trajectory_done : Bool
  profile : List ℚ
deriving DecidableEq

/-- Modelled from the spec: `trapTraj.c` is absent.  The planner, given
(target, start position, start velocity, max velocity, max acceleration,
max deceleration), produces a time-parameterised curve, here its duration and its
private description; evaluating the curve at an elapsed time gives
(position, velocity, acceleration). -/
structure Planner where
  plan : ℚ → ℚ → ℚ → ℚ → ℚ → ℚ → ℚ × List ℚ
  eval : List ℚ → ℚ → ℚ × ℚ × ℚ

/-- Modelled from the spec: `TRAJ_plan` stores the planned duration and curve in
`Traj`. -/
def TRAJ_plan (P : Planner) (Xf Xi Vi Vmax Amax Dmax : ℚ) (T : TrajStruct) : TrajStruct :=
  let r := P.plan Xf Xi Vi Vmax Amax Dmax
  { T with Tf_ := r.1, profile := r.2 }

/-- Modelled from the spec: `TRAJ_eval t` stores the curve's position, velocity
and acceleration at elapsed time `t` in `Traj.Y`, `Traj.Yd`, `Traj.Ydd`. -/
def TRAJ_eval (P : Planner) (t : ℚ) (T : TrajStruct) : TrajStruct :=
  let r := P.eval T.profile t
  { T with Y := r.1, Yd := r.2.1, Ydd := r.2.2 }

/-- The persistent controller state: the file-scope variables of `controller.c`
together with `Traj`. -/
structure State where
  Controller : ControllerStruct
  mPosSetPoint : ℚ
  mVelSetPoint : ℚ
  mCurrSetPoint : ℚ
  vel_integrator : ℚ
  input_pos_updated : Bool
  Traj : TrajStruct
deriving DecidableEq

/-- What a tick reads from its collaborators: the encoder's position estimate and
raw count, the validity flag of the anticogging table and the table itself
(`pCoggingMap->map`, as a function of the index). -/
structure Env where
  pos_estimate_ : ℚ
  cnt : Int
  AnticoggingValid : Bool
  map : Int → ℚ

/-- The locals `vel_des`, `current_des`, `v_err` of `CONTROLLER_loop`. -/
structure Locals where
  vel_des : ℚ
  current_des : ℚ
  v_err : ℚ
deriving DecidableEq

/-! ## The functions of `controller.c` -/

/-- `CONTROLLER_move_to_pos` (lines 35-39). -/
def CONTROLLER_move_to_pos (goal_point : ℚ) (s : State) : State :=
  { s with
    Controller := { s.Controller with input_position := goal_point }
    input_pos_updated := true }

/-- The static `move_to_pos` (lines 41-50). -/
def move_to_pos (P : Planner) (U : UsrConfigStruct) (goal_point : ℚ) (s : State) : State :=
  let T := TRAJ_plan P goal_point s.mPosSetPoint s.mVelSetPoint
    U.traj_vel U.traj_accel U.traj_decel s.Traj
  { s with Traj := { T with t := 0, trajectory_done := false } }

/-- `CONTROLLER_get_integrator_current` (lines 52-55). -/
def CONTROLLER_get_integrator_current (s : State) : ℚ := s.vel_integrator

/-- `CONTROLLER_reset` (lines 57-71); `pos_estimate_` is `Encoder.pos_estimate_`. -/
def CONTROLLER_reset (pos_estimate_ : ℚ) (s : State) : State :=
  { s with
    vel_integrator := 0
    Controller :=
      { input_position := pos_estimate_, input_velocity := 0, input_current := 0 }
    mPosSetPoint := pos_estimate_
    mVelSetPoint := 0
    mCurrSetPoint := 0
    input_pos_updated := false
    Traj := { s.Traj with trajectory_done := true } }

/-- The `CONTROL_MODE_POSITION_TRAP` case of the switch (lines 122-147). -/
def trapCase (K : Consts) (P : Planner) (U : UsrConfigStruct) (E : Env) (s : State) : State :=
  let s1 : State :=
    if s.input_pos_updated then
      { move_to_pos P U s.Controller.input_position s with input_pos_updated := false }
    else s
  if s1.Traj.trajectory_done then s1
  else if s1.Traj.t > s1.Traj.Tf_ then
    { s1 with
      mPosSetPoint := s1.Controller.input_position
      mVelSetPoint := 0
      mCurrSetPoint := 0
      Traj := { s1.Traj with trajectory_done := true } }
  else
    let T := TRAJ_eval P s1.Traj.t s1.Traj
    let s2 : State :=
      { s1 with
        mPosSetPoint := T.Y
        mVelSetPoint := T.Yd
        mCurrSetPoint := T.Ydd * U.inertia
        Traj := T }
    if fabs (s2.mPosSetPoint - E.pos_estimate_) < 1 then
      { s2 with Traj := { s2.Traj with t := s2.Traj.t + K.DT } }
    else s2

/-- The `switch (control_mode)` of `CONTROLLER_loop` (lines 78-151): the
reference generator.  It returns the updated state and locals. -/
def switchStage (K : Consts) (P : Planner) (U : UsrConfigStruct) (E : Env)
    (control_mode : Int) (s : State) (l : Locals) : State × Locals :=
  if control_mode = CONTROL_MODE_CURRENT then
    let s1 := { s with
      mCurrSetPoint := CLAMP s.Controller.input_current (-U.current_limit) U.current_limit }
    (s1, { l with current_des := s1.mCurrSetPoint })
  else if control_mode = CONTROL_MODE_CURRENT_RAMP then
    let target_current := CLAMP s.Controller.input_current (-U.current_limit) U.current_limit
    let max_step_size := fabs (K.DT * U.current_ramp_rate)
    let full_step := target_current - s.mCurrSetPoint
    let step := CLAMP full_step (-max_step_size) max_step_size
    let s1 := { s with mCurrSetPoint := s.mCurrSetPoint + step }
    (s1, { l with current_des := s1.mCurrSetPoint })
  else if control_mode = CONTROL_MODE_VELOCITY then
    let s1 := { s with
      mVelSetPoint := CLAMP s.Controller.input_velocity (-U.vel_limit) U.vel_limit }
    (s1, { l with vel_des := s1.mVelSetPoint })
  else if control_mode = CONTROL_MODE_VELOCITY_RAMP then
    let target_velocity := CLAMP s.Controller.input_velocity (-U.vel_limit) U.vel_limit
    let max_step_size := fabs (K.DT * U.vel_ramp_rate)
    let full_step := target_velocity - s.mVelSetPoint
    let step := CLAMP full_step (-max_step_size) max_step_size
    let s1 := { s with
      mVelSetPoint := s.mVelSetPoint + step
      mCurrSetPoint := (step / K.DT) * U.inertia }
    (s1, { l with vel_des := s1.mVelSetPoint })
  else if control_mode = CONTROL_MODE_POSITION then
    ({ s with mPosSetPoint := s.Controller.input_position }, l)
  else if control_mode = CONTROL_MODE_POSITION_TRAP then
    (trapCase K P U E s, l)
  else
    (s, l)

/-- The position stage (lines 153-160). -/
def positionStage (U : UsrConfigStruct) (position : ℚ) (s : State) (l : Locals) : Locals :=
  if U.control_mode ≥ CONTROL_MODE_POSITION then
    let pos_err := s.mPosSetPoint - position
    let vel_des := s.mVelSetPoint + U.pos_gain * pos_err
    { l with vel_des := CLAMP vel_des (-U.vel_limit) U.vel_limit }
  else l

/-- The velocity PI stage (lines 162-168). -/
def velocityStage (U : UsrConfigStruct) (velocity : ℚ) (s : State) (l : Locals) : Locals :=
  if U.control_mode ≥ CONTROL_MODE_VELOCITY then
    let v_err := l.vel_des - velocity
    { l with
      v_err := v_err
      current_des := s.mCurrSetPoint + U.vel_gain * v_err + s.vel_integrator }
  else l

/-- The value a 32-bit two's complement `int` holds after an arithmetic result
`x`: `x` reduced modulo `2^32` into the range from `-2^31` to `2^31 - 1`. -/
def wrapInt32 (x : Int) : Int := (x + 2147483648) % 4294967296 - 2147483648

/-- The index into `pCoggingMap->map` computed at line 172,
`(COGGING_MAP_NUM-1)*Encoder.cnt/ENCODER_CPR`: a 32-bit `int` product followed by a
C integer division. -/
def coggingIndex (K : Consts) (E : Env) : Int :=
  Int.tdiv (wrapInt32 ((K.COGGING_MAP_NUM - 1) * E.cnt)) K.ENCODER_CPR

/-- The anticogging stage (lines 170-173). -/
def anticoggingStage (K : Consts) (U : UsrConfigStruct) (E : Env) (l : Locals) : Locals :=
  if U.anticogging_enable && E.AnticoggingValid then
    { l with current_des := l.current_des + E.map (coggingIndex K E) }
  else l

/-- Lines 78-173 of `CONTROLLER_loop`: everything before the current limit.  The
`current_des` of the result is the raw (pre-clamp) current demand. -/
def preLimit (K : Consts) (P : Planner) (U : UsrConfigStruct) (E : Env) (l0 : Locals)
    (control_mode : Int) (velocity position : ℚ) (s : State) : State × Locals :=
  let r := switchStage K P U E control_mode s l0
  let l1 := positionStage U position r.1 r.2
  let l2 := velocityStage U velocity r.1 l1
  (r.1, anticoggingStage K U E l2)

/-- The current limit and integral saturation (lines 175-184). -/
def limitStage (K : Consts) (U : UsrConfigStruct) (s : State) (l : Locals) : ℚ × State :=
  if l.current_des < -U.current_limit then
    (-U.current_limit, s)
  else if l.current_des > U.current_limit then
    (U.current_limit, s)
  else
    (l.current_des,
      { s with vel_integrator := s.vel_integrator + (U.vel_integrator_gain * K.DT) * l.v_err })

/-- `CONTROLLER_loop` (lines 73-185): the returned current command and the state
after the tick.  `l0` holds the indeterminate start values of the locals. -/
def CONTROLLER_loop (K : Consts) (P : Planner) (U : UsrConfigStruct) (E : Env) (l0 : Locals)
    (control_mode : Int) (velocity position : ℚ) (s : State) : ℚ × State :=
  let r := preLimit K P U E l0 control_mode velocity position s
  limitStage K U r.1 r.2

/-- The raw (pre-clamp) current demand of a tick. -/
def rawDemand (K : Consts) (P : Planner) (U : UsrConfigStruct) (E : Env) (l0 : Locals)
    (control_mode : Int) (velocity position : ℚ) (s : State) : ℚ :=
  (preLimit K P U E l0 control_mode velocity position s).2.current_des

/-- What one tick receives besides the state: the environment, the start values
of the locals, and the measured velocity and position. -/
structure TickInput where
  env : Env
  locals : Locals
  velocity : ℚ
  position : ℚ

/-- Consecutive ticks in one mode, with nothing else touching the state between
them. -/
def runTicks (K : Consts) (P : Planner) (U : UsrConfigStruct) (control_mode : Int) :
    List TickInput → State → State
  | [], s => s
  | i :: rest, s =>
    runTicks K P U control_mode rest
      (CONTROLLER_loop K P U i.env i.locals control_mode i.velocity i.position s).2

/-! ## Concrete inputs used by the closed examples -/

/-- A tick period of 0.01, 16384 counts per revolution and a 128-entry table. -/
def exConsts : Consts := { DT := 1 / 100, ENCODER_CPR := 16384, COGGING_MAP_NUM := 128 }

/-- A planner whose curves last one time unit and rest at the origin. -/
def exPlanner : Planner :=
  { plan := fun _ _ _ _ _ _ => (1, []), eval := fun _ _ => (0, 0, 0) }

/-- A configuration in Current mode: current limit 10, velocity limit 5, ramp
rates 2, inertia 100, unit gains, anticogging disabled. -/
def exConfig : UsrConfigStruct :=
  { control_mode := CONTROL_MODE_CURRENT, current_limit := 10, current_ramp_rate := 2,
    vel_limit := 5, vel_ramp_rate := 2, inertia := 100, pos_gain := 1, vel_gain := 1,
    vel_integrator_gain := 1, traj_vel := 1, traj_accel := 1, traj_decel := 1,
    anticogging_enable := false }

/-- An encoder at the origin and an invalid, all-zero anticogging table. -/
def exEnv : Env :=
  { pos_estimate_ := 0, cnt := 0, AnticoggingValid := false, map := fun _ => 0 }

/-- A finished trajectory. -/
def exTraj : TrajStruct :=
  { Y := 0, Yd := 0, Ydd := 0, Tf_ := 0, t := 0, trajectory_done := true, profile := [] }

/-- The state with every variable zero and the trajectory done: the state
`CONTROLLER_reset` produces at position 0. -/
def exState : State :=
  { Controller := { input_position := 0, input_velocity := 0, input_current := 0 },
    mPosSetPoint := 0, mVelSetPoint := 0, mCurrSetPoint := 0, vel_integrator := 0,
    input_pos_updated := false, Traj := exTraj }

/-- Start values of the locals: all zero. -/
def exLocals : Locals := { vel_des := 0, current_des := 0, v_err := 0 }

/-- The example configuration with a negative current limit of -1. -/
def exConfigNegLimit : UsrConfigStruct := { exConfig with current_limit := -1 }

/-- The example configuration in Velocity mode. -/
def exConfigVelocity : UsrConfigStruct := { exConfig with control_mode := CONTROL_MODE_VELOCITY }

/-- The example configuration in Velocity-Ramp mode. -/
def exConfigVelocityRamp : UsrConfigStruct :=
  { exConfig with control_mode := CONTROL_MODE_VELOCITY_RAMP }

/-- The example state with the demand inputs `input_velocity = 5` and
`input_current = 15`. -/
def exStateDemand : State :=
  { exState with
    Controller := { input_position := 0, input_velocity := 5, input_current := 15 } }

/-- The example configuration with the configured control mode Position. -/
def exConfigPosition : UsrConfigStruct := { exConfig with control_mode := CONTROL_MODE_POSITION }

/-- Start values of the locals in which the never-assigned `v_err` holds 1. -/
def exLocalsStale : Locals := { vel_des := 0, current_des := 0, v_err := 1 }

/-- A stale state: set-points, integrator and inputs far from rest, a command
pending and a trajectory in flight. -/
def exStateStale : State :=
  { Controller := { input_position := 40, input_velocity := -3, input_current := 8 },
    mPosSetPoint := 17, mVelSetPoint := 4, mCurrSetPoint := -6, vel_integrator := 9,
    input_pos_updated := true,
    Traj := { Y := 17, Yd := 4, Ydd := 1, Tf_ := 3, t := 1, trajectory_done := false,
              profile := [1, 2] } }

/-- A tracking state whose elapsed time 2 is beyond the duration 1, with the
target `input_position = 40`. -/
def exStateExpired : State :=
  { exStateStale with
    input_pos_updated := false
    Traj := { exStateStale.Traj with Tf_ := 1, t := 2 } }

/-- Two ticks measuring different velocities and positions. -/
def exTicks : List TickInput :=
  [{ env := exEnv, locals := exLocals, velocity := 0, position := 17 },
   { env := exEnv, locals := exLocalsStale, velocity := 3, position := 39 }]

/-! ## Observations on a tick -/

/-- The arguments of one invocation of `TRAJ_plan`. -/
structure PlanCall where
  Xf : ℚ
  Xi : ℚ
  Vi : ℚ
  Vmax : ℚ
  Amax : ℚ
  Dmax : ℚ
deriving DecidableEq

/-- The invocations of `TRAJ_plan` made by one tick, in order.  `TRAJ_plan` is
called only by `move_to_pos` (lines 43-46), and `move_to_pos` only at line 124: in
the Position-Trapezoidal case, when `input_pos_updated` is set, with
`controller->input_position` as goal. -/
def plannerCalls (U : UsrConfigStruct) (control_mode : Int) (s : State) : List PlanCall :=
  if control_mode = CONTROL_MODE_POSITION_TRAP then
    if s.input_pos_updated then
      [{ Xf := s.Controller.input_position, Xi := s.mPosSetPoint, Vi := s.mVelSetPoint,
         Vmax := U.traj_vel, Amax := U.traj_accel, Dmax := U.traj_decel }]
    else []
  else []

/-- The duration and curve `TRAJ_plan` produces for the goal `target` from the
set-points of `s` and the configured trajectory limits (the call at lines 43-46). -/
def planFrom (P : Planner) (U : UsrConfigStruct) (target : ℚ) (s : State) : ℚ × List ℚ :=
  P.plan target s.mPosSetPoint s.mVelSetPoint U.traj_vel U.traj_accel U.traj_decel

/-- A planner whose curves last one time unit and sit at position 3 with velocity
2 and acceleration 1. -/
def exPlannerMoving : Planner :=
  { plan := fun _ _ _ _ _ _ => (1, [3, 2, 1]), eval := fun _ _ => (3, 2, 1) }

/-- The example configuration with both ramp rates -2. -/
def exConfigNegRate : UsrConfigStruct :=
  { exConfig with current_ramp_rate := -2, vel_ramp_rate := -2 }

/-- The example configuration with both ramp rates 0. -/
def exConfigZeroRate : UsrConfigStruct :=
  { exConfig with current_ramp_rate := 0, vel_ramp_rate := 0 }

/-- An encoder at the origin with raw count 8192 and a valid anticogging table
whose every entry is 7. -/
def exEnvCogging : Env :=
  { pos_estimate_ := 0, cnt := 8192, AnticoggingValid := true, map := fun _ => 7 }

/-- The cascade formula of Position mode in the claim's words: the current
set-point plus `vel_gain` times the velocity error plus the integrator, where the
velocity demand is the velocity set-point plus `pos_gain` times the position error
of `input_position`, clamped to `±vel_limit`. -/
def positionCascade (U : UsrConfigStruct) (velocity position : ℚ) (s : State) : ℚ :=
  s.mCurrSetPoint +
    U.vel_gain *
      (CLAMP (s.mVelSetPoint + U.pos_gain * (s.Controller.input_position - position))
          (-U.vel_limit) U.vel_limit - velocity) +
    s.vel_integrator

/-- A tracking state at elapsed time 0 of a curve lasting one time unit. -/
def exStateTracking : State :=
  { exState with
    Traj := { Y := 0, Yd := 0, Ydd := 0, Tf_ := 1, t := 0, trajectory_done := false,
              profile := [3, 2, 1] } }

/-- An encoder whose position estimate is 5/2, within one unit of the curve of
`exPlannerMoving`, with an invalid table. -/
def exEnvNear : Env :=
  { pos_estimate_ := 5 / 2, cnt := 0, AnticoggingValid := false, map := fun _ => 0 }

/-- The local `target_current` of the Current-Ramp case (line 87). -/
def targetCurrent (U : UsrConfigStruct) (s : State) : ℚ :=
  CLAMP s.Controller.input_current (-U.current_limit) U.current_limit

/-- The local `target_velocity` of the Velocity-Ramp case (line 106). -/
def targetVelocity (U : UsrConfigStruct) (s : State) : ℚ :=
  CLAMP s.Controller.input_velocity (-U.vel_limit) U.vel_limit

/-- The local `max_step_size` of the Current-Ramp case (line 90). -/
def maxStepCurrent (K : Consts) (U : UsrConfigStruct) : ℚ := fabs (K.DT * U.current_ramp_rate)

/-- The local `max_step_size` of the Velocity-Ramp case (line 109). -/
def maxStepVelocity (K : Consts) (U : UsrConfigStruct) : ℚ := fabs (K.DT * U.vel_ramp_rate)

/-- The example state with demand inputs and `mCurrSetPoint = 9.97`, at distance
0.03 from the current target 10. -/
def exStateNearTarget : State := { exStateDemand with mCurrSetPoint := 997 / 100 }

/-- An encoder at raw count 16383, the largest count below the 16384 counts per
revolution of `exConsts`, with a valid table of sevens. -/
def exEnvLastCount : Env :=
  { pos_estimate_ := 0, cnt := 16383, AnticoggingValid := true, map := fun _ => 7 }

/-- Start values of the locals in which the never-assigned `current_des` holds 5
and `v_err` holds 1. -/
def exLocalsJunk : Locals := { vel_des := 0, current_des := 5, v_err := 1 }

/-- Constants with 1048576 counts per revolution and a 3001-entry table. -/
def exConstsLarge : Consts :=
  { DT := 1 / 100, ENCODER_CPR := 1048576, COGGING_MAP_NUM := 3001 }

/-- An encoder at raw count 800000 with a valid table. -/
def exEnvOverflow : Env :=
  { pos_estimate_ := 0, cnt := 800000, AnticoggingValid := true, map := fun _ => 7 }

/-! ## Predicates used in the proofs -/

/-- The trajectory is done and holds the target `x`: the set-points are
`(x, 0, 0)`, `input_position` is `x` and no command is pending. -/
def Settled (x : ℚ) (s : State) : Prop :=
  s.Controller.input_position = x ∧ s.mPosSetPoint = x ∧ s.mVelSetPoint = 0 ∧
    s.mCurrSetPoint = 0 ∧ s.Traj.trajectory_done = true ∧ s.input_pos_updated = false

/-! ## Helper lemmas -/

theorem CLAMP_le_upper (x lower upper : ℚ) : CLAMP x lower upper ≤ upper := by
  unfold CLAMP
  exact min_le_left _ _

theorem lower_le_CLAMP (x lower upper : ℚ) (h : lower ≤ upper) :
    lower ≤ CLAMP x lower upper := by
  unfold CLAMP
  exact le_min h (le_max_right _ _)

theorem CLAMP_eq_ite (x lower upper : ℚ) (h : lower ≤ upper) :
    CLAMP x lower upper = if x < lower then lower else if upper < x then upper else x := by
  unfold CLAMP
  split_ifs with h1 h2
  · rw [max_eq_right h1.le, min_eq_right h]
  · rw [max_eq_left (not_lt.mp h1), min_eq_left h2.le]
  · rw [max_eq_left (not_lt.mp h1), min_eq_right (not_lt.mp h2)]

theorem abs_CLAMP_symm_le (x m : ℚ) (h : 0 ≤ m) : |CLAMP x (-m) m| ≤ m := by
  rw [abs_le]
  exact ⟨lower_le_CLAMP x (-m) m (by linarith), CLAMP_le_upper x (-m) m⟩

theorem limitStage_fst_bounds (K : Consts) (U : UsrConfigStruct) (s : State) (l : Locals)
    (h : 0 ≤ U.current_limit) :
    -U.current_limit ≤ (limitStage K U s l).1 ∧ (limitStage K U s l).1 ≤ U.current_limit := by
  unfold limitStage
  split_ifs with h1 h2
  · exact ⟨le_refl _, show -U.current_limit ≤ U.current_limit by linarith⟩
  · exact ⟨show -U.current_limit ≤ U.current_limit by linarith, le_refl _⟩
  · exact ⟨not_lt.mp h1, not_lt.mp h2⟩

theorem limitStage_snd_of_saturated (K : Consts) (U : UsrConfigStruct) (s : State) (l : Locals)
    (h : l.current_des < -U.current_limit ∨ l.current_des > U.current_limit) :
    (limitStage K U s l).2 = s := by
  unfold limitStage
  split_ifs with h1 h2
  · rfl
  · rfl
  · rcases h with h | h
    · exact absurd h h1
    · exact absurd h h2

theorem trapCase_vel_integrator (K : Consts) (P : Planner) (U : UsrConfigStruct) (E : Env)
    (s : State) : (trapCase K P U E s).vel_integrator = s.vel_integrator := by
  unfold trapCase move_to_pos
  simp only []
  split_ifs <;> rfl

theorem switchStage_vel_integrator (K : Consts) (P : Planner) (U : UsrConfigStruct) (E : Env)
    (control_mode : Int) (s : State) (l : Locals) :
    (switchStage K P U E control_mode s l).1.vel_integrator = s.vel_integrator := by
  unfold switchStage
  simp only []
  split_ifs
  · rfl
  · rfl
  · rfl
  · rfl
  · rfl
  · exact trapCase_vel_integrator K P U E s
  · rfl

theorem limitStage_mCurrSetPoint (K : Consts) (U : UsrConfigStruct) (s : State) (l : Locals) :
    (limitStage K U s l).2.mCurrSetPoint = s.mCurrSetPoint := by
  unfold limitStage
  split_ifs <;> rfl

theorem limitStage_mVelSetPoint (K : Consts) (U : UsrConfigStruct) (s : State) (l : Locals) :
    (limitStage K U s l).2.mVelSetPoint = s.mVelSetPoint := by
  unfold limitStage
  split_ifs <;> rfl

theorem limitStage_mPosSetPoint (K : Consts) (U : UsrConfigStruct) (s : State) (l : Locals) :
    (limitStage K U s l).2.mPosSetPoint = s.mPosSetPoint := by
  unfold limitStage
  split_ifs <;> rfl

theorem limitStage_Traj (K : Consts) (U : UsrConfigStruct) (s : State) (l : Locals) :
    (limitStage K U s l).2.Traj = s.Traj := by
  unfold limitStage
  split_ifs <;> rfl

theorem limitStage_Controller (K : Consts) (U : UsrConfigStruct) (s : State) (l : Locals) :
    (limitStage K U s l).2.Controller = s.Controller := by
  unfold limitStage
  split_ifs <;> rfl

theorem limitStage_input_pos_updated (K : Consts) (U : UsrConfigStruct) (s : State)
    (l : Locals) : (limitStage K U s l).2.input_pos_updated = s.input_pos_updated := by
  unfold limitStage
  split_ifs <;> rfl

/-- The set-points after a tick are those the switch leaves. -/
theorem loop_mCurrSetPoint (K : Consts) (P : Planner) (U : UsrConfigStruct) (E : Env)
    (l0 : Locals) (control_mode : Int) (velocity position : ℚ) (s : State) :
    (CONTROLLER_loop K P U E l0 control_mode velocity position s).2.mCurrSetPoint =
      (switchStage K P U E control_mode s l0).1.mCurrSetPoint := by
  unfold CONTROLLER_loop
  rw [limitStage_mCurrSetPoint]
  rfl

theorem loop_mVelSetPoint (K : Consts) (P : Planner) (U : UsrConfigStruct) (E : Env)
    (l0 : Locals) (control_mode : Int) (velocity position : ℚ) (s : State) :
    (CONTROLLER_loop K P U E l0 control_mode velocity position s).2.mVelSetPoint =
      (switchStage K P U E control_mode s l0).1.mVelSetPoint := by
  unfold CONTROLLER_loop
  rw [limitStage_mVelSetPoint]
  rfl

theorem loop_mPosSetPoint (K : Consts) (P : Planner) (U : UsrConfigStruct) (E : Env)
    (l0 : Locals) (control_mode : Int) (velocity position : ℚ) (s : State) :
    (CONTROLLER_loop K P U E l0 control_mode velocity position s).2.mPosSetPoint =
      (switchStage K P U E control_mode s l0).1.mPosSetPoint := by
  unfold CONTROLLER_loop
  rw [limitStage_mPosSetPoint]
  rfl

theorem loop_Traj (K : Consts) (P : Planner) (U : UsrConfigStruct) (E : Env)
    (l0 : Locals) (control_mode : Int) (velocity position : ℚ) (s : State) :
    (CONTROLLER_loop K P U E l0 control_mode velocity position s).2.Traj =
      (switchStage K P U E control_mode s l0).1.Traj := by
  unfold CONTROLLER_loop
  rw [limitStage_Traj]
  rfl

theorem loop_Controller (K : Consts) (P : Planner) (U : UsrConfigStruct) (E : Env)
    (l0 : Locals) (control_mode : Int) (velocity position : ℚ) (s : State) :
    (CONTROLLER_loop K P U E l0 control_mode velocity position s).2.Controller =
      (switchStage K P U E control_mode s l0).1.Controller := by
  unfold CONTROLLER_loop
  rw [limitStage_Controller]
  rfl

theorem loop_input_pos_updated (K : Consts) (P : Planner) (U : UsrConfigStruct) (E : Env)
    (l0 : Locals) (control_mode : Int) (velocity position : ℚ) (s : State) :
    (CONTROLLER_loop K P U E l0 control_mode velocity position s).2.input_pos_updated =
      (switchStage K P U E control_mode s l0).1.input_pos_updated := by
  unfold CONTROLLER_loop
  rw [limitStage_input_pos_updated]
  rfl

/-- The Current-Ramp case moves `mCurrSetPoint` by the clamped step. -/
theorem switchStage_current_ramp (K : Consts) (P : Planner) (U : UsrConfigStruct) (E : Env)
    (s : State) (l : Locals) :
    (switchStage K P U E CONTROL_MODE_CURRENT_RAMP s l).1.mCurrSetPoint =
      s.mCurrSetPoint +
        CLAMP (CLAMP s.Controller.input_current (-U.current_limit) U.current_limit
            - s.mCurrSetPoint)
          (-fabs (K.DT * U.current_ramp_rate)) (fabs (K.DT * U.current_ramp_rate)) := by
  simp [switchStage, CONTROL_MODE_CURRENT_RAMP, CONTROL_MODE_CURRENT]

/-- The Velocity-Ramp case moves `mVelSetPoint` by the clamped step. -/
theorem switchStage_velocity_ramp (K : Consts) (P : Planner) (U : UsrConfigStruct) (E : Env)
    (s : State) (l : Locals) :
    (switchStage K P U E CONTROL_MODE_VELOCITY_RAMP s l).1.mVelSetPoint =
      s.mVelSetPoint +
        CLAMP (CLAMP s.Controller.input_velocity (-U.vel_limit) U.vel_limit - s.mVelSetPoint)
          (-fabs (K.DT * U.vel_ramp_rate)) (fabs (K.DT * U.vel_ramp_rate)) := by
  simp [switchStage, CONTROL_MODE_VELOCITY_RAMP, CONTROL_MODE_CURRENT,
    CONTROL_MODE_CURRENT_RAMP, CONTROL_MODE_VELOCITY]

/-- A step clamped to `±m` points the same way as the full step `d` and is no
longer than it. -/
theorem CLAMP_step_between (d m : ℚ) (hm : 0 ≤ m) :
    (0 ≤ d → 0 ≤ CLAMP d (-m) m ∧ CLAMP d (-m) m ≤ d) ∧
    (d ≤ 0 → d ≤ CLAMP d (-m) m ∧ CLAMP d (-m) m ≤ 0) := by
  rw [CLAMP_eq_ite d (-m) m (by linarith)]
  constructor
  · intro hd
    split_ifs with h1 h2
    · constructor <;> linarith
    · constructor <;> linarith
    · constructor <;> linarith
  · intro hd
    split_ifs with h1 h2
    · constructor <;> linarith
    · constructor <;> linarith
    · constructor <;> linarith

/-- Moving from `x` by a clamped step towards a target `T` stays in any range
`±L` that holds both `x` and `T`. -/
theorem ramp_stays_within (x T m L : ℚ) (hm : 0 ≤ m) (hx : -L ≤ x ∧ x ≤ L)
    (hT : -L ≤ T ∧ T ≤ L) :
    -L ≤ x + CLAMP (T - x) (-m) m ∧ x + CLAMP (T - x) (-m) m ≤ L := by
  have h := CLAMP_step_between (T - x) m hm
  rcases le_total 0 (T - x) with hd | hd
  · have h1 := h.1 hd
    constructor <;> linarith [h1.1, h1.2, hx.1, hx.2, hT.1, hT.2]
  · have h2 := h.2 hd
    constructor <;> linarith [h2.1, h2.2, hx.1, hx.2, hT.1, hT.2]

/-- Every case of the switch other than Current, Current-Ramp, Velocity-Ramp and
Position-Trapezoidal leaves `mCurrSetPoint` as it was. -/
theorem switchStage_mCurrSetPoint_other (K : Consts) (P : Planner) (U : UsrConfigStruct)
    (E : Env) (control_mode : Int) (s : State) (l : Locals)
    (h0 : control_mode ≠ CONTROL_MODE_CURRENT) (h1 : control_mode ≠ CONTROL_MODE_CURRENT_RAMP)
    (h3 : control_mode ≠ CONTROL_MODE_VELOCITY_RAMP)
    (h5 : control_mode ≠ CONTROL_MODE_POSITION_TRAP) :
    (switchStage K P U E control_mode s l).1.mCurrSetPoint = s.mCurrSetPoint := by
  unfold switchStage
  simp only [if_neg h0, if_neg h1, if_neg h3, if_neg h5]
  split_ifs <;> rfl

/-- Every case of the switch other than Velocity, Velocity-Ramp and
Position-Trapezoidal leaves `mVelSetPoint` as it was. -/
theorem switchStage_mVelSetPoint_other (K : Consts) (P : Planner) (U : UsrConfigStruct)
    (E : Env) (control_mode : Int) (s : State) (l : Locals)
    (h2 : control_mode ≠ CONTROL_MODE_VELOCITY) (h3 : control_mode ≠ CONTROL_MODE_VELOCITY_RAMP)
    (h5 : control_mode ≠ CONTROL_MODE_POSITION_TRAP) :
    (switchStage K P U E control_mode s l).1.mVelSetPoint = s.mVelSetPoint := by
  unfold switchStage
  simp only [if_neg h2, if_neg h3, if_neg h5]
  split_ifs <;> rfl

/-- The Current case stores the clamped input. -/
theorem switchStage_current (K : Consts) (P : Planner) (U : UsrConfigStruct) (E : Env)
    (s : State) (l : Locals) :
    (switchStage K P U E CONTROL_MODE_CURRENT s l).1.mCurrSetPoint =
      CLAMP s.Controller.input_current (-U.current_limit) U.current_limit := by
  simp [switchStage]

/-- The Velocity case stores the clamped input. -/
theorem switchStage_velocity (K : Consts) (P : Planner) (U : UsrConfigStruct) (E : Env)
    (s : State) (l : Locals) :
    (switchStage K P U E CONTROL_MODE_VELOCITY s l).1.mVelSetPoint =
      CLAMP s.Controller.input_velocity (-U.vel_limit) U.vel_limit := by
  simp [switchStage, CONTROL_MODE_VELOCITY, CONTROL_MODE_CURRENT, CONTROL_MODE_CURRENT_RAMP]

theorem CLAMP_zero_symm (m : ℚ) (hm : 0 ≤ m) : CLAMP 0 (-m) m = 0 := by
  unfold CLAMP
  rw [max_eq_left (by linarith : -m ≤ 0), min_eq_right hm]

/-- With the trajectory done and no command pending the trapezoidal case does
nothing. -/
theorem trapCase_done_idle (K : Consts) (P : Planner) (U : UsrConfigStruct) (E : Env)
    (s : State) (hdone : s.Traj.trajectory_done = true) (hpend : s.input_pos_updated = false) :
    trapCase K P U E s = s := by
  simp [trapCase, hdone, hpend]

/-- With no command pending, the trajectory not done and the elapsed time beyond
the duration, the trapezoidal case snaps to the target and marks the trajectory
done. -/
theorem trapCase_expired (K : Consts) (P : Planner) (U : UsrConfigStruct) (E : Env)
    (s : State) (hdone : s.Traj.trajectory_done = false) (hpend : s.input_pos_updated = false)
    (ht : s.Traj.t > s.Traj.Tf_) :
    trapCase K P U E s =
      { s with
        mPosSetPoint := s.Controller.input_position
        mVelSetPoint := 0
        mCurrSetPoint := 0
        Traj := { s.Traj with trajectory_done := true } } := by
  simp [trapCase, hdone, hpend, ht]

/-- The Position-Trapezoidal case of the switch. -/
theorem switchStage_trap (K : Consts) (P : Planner) (U : UsrConfigStruct) (E : Env)
    (s : State) (l : Locals) :
    (switchStage K P U E CONTROL_MODE_POSITION_TRAP s l).1 = trapCase K P U E s := by
  simp [switchStage, CONTROL_MODE_POSITION_TRAP, CONTROL_MODE_CURRENT,
    CONTROL_MODE_CURRENT_RAMP, CONTROL_MODE_VELOCITY, CONTROL_MODE_VELOCITY_RAMP,
    CONTROL_MODE_POSITION]

/-- A Position-Trapezoidal tick keeps a settled state settled. -/
theorem loop_trap_settled (K : Consts) (P : Planner) (U : UsrConfigStruct) (E : Env)
    (l0 : Locals) (velocity position x : ℚ) (s : State) (h : Settled x s) :
    Settled x (CONTROLLER_loop K P U E l0 CONTROL_MODE_POSITION_TRAP velocity position s).2 := by
  obtain ⟨h1, h2, h3, h4, h5, h6⟩ := h
  unfold Settled
  rw [loop_Controller, loop_mPosSetPoint, loop_mVelSetPoint, loop_mCurrSetPoint, loop_Traj,
    loop_input_pos_updated, switchStage_trap, trapCase_done_idle K P U E s h5 h6]
  exact ⟨h1, h2, h3, h4, h5, h6⟩

/-- Any run of Position-Trapezoidal ticks keeps a settled state settled. -/
theorem runTicks_trap_settled (K : Consts) (P : Planner) (U : UsrConfigStruct) (x : ℚ)
    (ticks : List TickInput) :
    ∀ s : State, Settled x s → Settled x (runTicks K P U CONTROL_MODE_POSITION_TRAP ticks s) := by
  induction ticks with
  | nil =>
    intro s h
    exact h
  | cons i rest ih =>
    intro s h
    exact ih _ (loop_trap_settled K P U i.env i.locals i.velocity i.position x s h)

/-! ## C1: the returned current command is bounded by the current limit -/

/-- C1 (counterexample): the bound does not hold for every configuration.  With
`current_limit = -1` a Current-mode tick from the all-zero state returns 1, and
the interval from `-current_limit = 1` to `current_limit = -1` is empty. -/
theorem C1_counterexample_negative_limit :
    (CONTROLLER_loop exConsts exPlanner exConfigNegLimit exEnv exLocals
        CONTROL_MODE_CURRENT 0 0 exState).1 = 1 ∧
    ¬ (-exConfigNegLimit.current_limit ≤
        (CONTROLLER_loop exConsts exPlanner exConfigNegLimit exEnv exLocals
          CONTROL_MODE_CURRENT 0 0 exState).1 ∧
       (CONTROLLER_loop exConsts exPlanner exConfigNegLimit exEnv exLocals
          CONTROL_MODE_CURRENT 0 0 exState).1 ≤ exConfigNegLimit.current_limit) := by
  decide

/-- C1 (amended): for every configuration whose `current_limit` is non-negative,
and for every mode argument, state, environment, start value of the locals and
measured velocity and position, the value returned by `CONTROLLER_loop` lies in
the closed interval from `-current_limit` to `+current_limit`. -/
theorem C1_output_within_current_limit (K : Consts) (P : Planner) (U : UsrConfigStruct)
    (E : Env) (l0 : Locals) (control_mode : Int) (velocity position : ℚ) (s : State)
    (hlimit : 0 ≤ U.current_limit) :
    -U.current_limit ≤ (CONTROLLER_loop K P U E l0 control_mode velocity position s).1 ∧
    (CONTROLLER_loop K P U E l0 control_mode velocity position s).1 ≤ U.current_limit := by
  unfold CONTROLLER_loop
  exact limitStage_fst_bounds K U _ _ hlimit

/-- C1 (witness): in Current mode with limit 10 and `input_current = 15` the
returned command lies between -10 and 10. -/
theorem C1_output_within_current_limit_witness :
    (0 : ℚ) ≤ exConfig.current_limit ∧
    (-exConfig.current_limit ≤
        (CONTROLLER_loop exConsts exPlanner exConfig exEnv exLocals CONTROL_MODE_CURRENT 0 0
          { exState with Controller := { exState.Controller with input_current := 15 } }).1 ∧
     (CONTROLLER_loop exConsts exPlanner exConfig exEnv exLocals CONTROL_MODE_CURRENT 0 0
          { exState with Controller := { exState.Controller with input_current := 15 } }).1 ≤
        exConfig.current_limit) :=
  ⟨by decide,
   C1_output_within_current_limit exConsts exPlanner exConfig exEnv exLocals
     CONTROL_MODE_CURRENT 0 0
     { exState with Controller := { exState.Controller with input_current := 15 } }
     (by decide)⟩

/-! ## C2: anti-windup -/

/-- C2: whenever the raw (pre-clamp) current demand of a tick is strictly below
`-current_limit` or strictly above `+current_limit`, `vel_integrator` after the
tick equals its value before the tick. -/
theorem C2_antiwindup_integrator_unchanged (K : Consts) (P : Planner) (U : UsrConfigStruct)
    (E : Env) (l0 : Locals) (control_mode : Int) (velocity position : ℚ) (s : State)
    (hsat : rawDemand K P U E l0 control_mode velocity position s < -U.current_limit ∨
      rawDemand K P U E l0 control_mode velocity position s > U.current_limit) :
    (CONTROLLER_loop K P U E l0 control_mode velocity position s).2.vel_integrator =
      s.vel_integrator := by
  unfold CONTROLLER_loop
  rw [limitStage_snd_of_saturated K U _ _ hsat]
  exact switchStage_vel_integrator K P U E control_mode s l0

/-- C2 (witness): in Velocity mode with a measured velocity of -100 and an
integrator of 3 the raw demand is 103, above the limit 10, and the integrator is
still 3 after the tick. -/
theorem C2_antiwindup_integrator_unchanged_witness :
    (rawDemand exConsts exPlanner exConfigVelocity exEnv exLocals CONTROL_MODE_VELOCITY
        (-100) 0 { exState with vel_integrator := 3 } < -exConfigVelocity.current_limit ∨
      rawDemand exConsts exPlanner exConfigVelocity exEnv exLocals CONTROL_MODE_VELOCITY
        (-100) 0 { exState with vel_integrator := 3 } > exConfigVelocity.current_limit) ∧
    (CONTROLLER_loop exConsts exPlanner exConfigVelocity exEnv exLocals CONTROL_MODE_VELOCITY
        (-100) 0 { exState with vel_integrator := 3 }).2.vel_integrator = 3 :=
  ⟨by norm_num [rawDemand, preLimit, switchStage, positionStage, velocityStage,
      anticoggingStage, CLAMP, exConfigVelocity, exConfig, exState, exLocals, exEnv,
      CONTROL_MODE_VELOCITY, CONTROL_MODE_CURRENT, CONTROL_MODE_CURRENT_RAMP,
      CONTROL_MODE_POSITION],
   C2_antiwindup_integrator_unchanged exConsts exPlanner exConfigVelocity exEnv exLocals
     CONTROL_MODE_VELOCITY (-100) 0 { exState with vel_integrator := 3 }
     (by norm_num [rawDemand, preLimit, switchStage, positionStage, velocityStage,
      anticoggingStage, CLAMP, exConfigVelocity, exConfig, exState, exLocals, exEnv,
      CONTROL_MODE_VELOCITY, CONTROL_MODE_CURRENT, CONTROL_MODE_CURRENT_RAMP,
      CONTROL_MODE_POSITION])⟩

/-! ## C3: ramp step bound -/

/-- C3: for a tick period `DT ≥ 0` and ramp rates `≥ 0`, one tick in Current-Ramp
mode changes `mCurrSetPoint` by at most `DT * current_ramp_rate` in absolute value,
and one tick in Velocity-Ramp mode changes `mVelSetPoint` by at most
`DT * vel_ramp_rate` in absolute value, for every prior state and input. -/
theorem C3_ramp_step_bound (K : Consts) (P : Planner) (U : UsrConfigStruct) (E : Env)
    (l0 : Locals) (velocity position : ℚ) (s : State) (hDT : 0 ≤ K.DT)
    (hcur : 0 ≤ U.current_ramp_rate) (hvel : 0 ≤ U.vel_ramp_rate) :
    |(CONTROLLER_loop K P U E l0 CONTROL_MODE_CURRENT_RAMP velocity position s).2.mCurrSetPoint
        - s.mCurrSetPoint| ≤ K.DT * U.current_ramp_rate ∧
    |(CONTROLLER_loop K P U E l0 CONTROL_MODE_VELOCITY_RAMP velocity position s).2.mVelSetPoint
        - s.mVelSetPoint| ≤ K.DT * U.vel_ramp_rate := by
  have hc : fabs (K.DT * U.current_ramp_rate) = K.DT * U.current_ramp_rate := by
    unfold fabs
    exact abs_of_nonneg (mul_nonneg hDT hcur)
  have hv : fabs (K.DT * U.vel_ramp_rate) = K.DT * U.vel_ramp_rate := by
    unfold fabs
    exact abs_of_nonneg (mul_nonneg hDT hvel)
  constructor
  · rw [loop_mCurrSetPoint, switchStage_current_ramp, hc, add_sub_cancel_left]
    exact abs_CLAMP_symm_le _ _ (mul_nonneg hDT hcur)
  · rw [loop_mVelSetPoint, switchStage_velocity_ramp, hv, add_sub_cancel_left]
    exact abs_CLAMP_symm_le _ _ (mul_nonneg hDT hvel)

/-- C3 (witness): with tick period 0.01 and ramp rates 2, one ramp tick from
set-point 0 towards the targets 10 (current) and 5 (velocity) moves each set-point
by at most 0.02. -/
theorem C3_ramp_step_bound_witness :
    ((0 : ℚ) ≤ exConsts.DT ∧ (0 : ℚ) ≤ exConfig.current_ramp_rate ∧
      (0 : ℚ) ≤ exConfig.vel_ramp_rate) ∧
    (|(CONTROLLER_loop exConsts exPlanner exConfig exEnv exLocals CONTROL_MODE_CURRENT_RAMP
          0 0 exStateDemand).2.mCurrSetPoint - exStateDemand.mCurrSetPoint| ≤
        exConsts.DT * exConfig.current_ramp_rate ∧
     |(CONTROLLER_loop exConsts exPlanner exConfig exEnv exLocals CONTROL_MODE_VELOCITY_RAMP
          0 0 exStateDemand).2.mVelSetPoint - exStateDemand.mVelSetPoint| ≤
        exConsts.DT * exConfig.vel_ramp_rate) :=
  ⟨⟨by norm_num [exConsts], by decide, by decide⟩,
   C3_ramp_step_bound exConsts exPlanner exConfig exEnv exLocals 0 0 exStateDemand
     (by norm_num [exConsts]) (by decide) (by decide)⟩

/-! ## C4: the current modes and the measured velocity and position -/

/-- C4 (counterexample): the cascade is gated on the configured control mode, not
on the mode argument.  With the configured mode Position, two Current-mode ticks
from the same state that differ only in the measured velocity (0 and 1) return 0
and -1. -/
theorem C4_counterexample_configured_position :
    (CONTROLLER_loop exConsts exPlanner exConfigPosition exEnv exLocals
        CONTROL_MODE_CURRENT 0 0 exState).1 = 0 ∧
    (CONTROLLER_loop exConsts exPlanner exConfigPosition exEnv exLocals
        CONTROL_MODE_CURRENT 1 0 exState).1 = -1 ∧
    (CONTROLLER_loop exConsts exPlanner exConfigPosition exEnv exLocals
        CONTROL_MODE_CURRENT 0 0 exState).1 ≠
      (CONTROLLER_loop exConsts exPlanner exConfigPosition exEnv exLocals
        CONTROL_MODE_CURRENT 1 0 exState).1 := by
  norm_num [CONTROLLER_loop, preLimit, limitStage, switchStage, positionStage, velocityStage,
    anticoggingStage, CLAMP, exConfigPosition, exConfig, exState, exLocals, exEnv,
    CONTROL_MODE_CURRENT, CONTROL_MODE_POSITION, CONTROL_MODE_VELOCITY]

/-- C4 (amended): when the mode argument is Current or Current-Ramp and the
configured control mode is also below Velocity (Current or Current-Ramp), two
ticks from the same state and configuration return the same current command,
whatever the measured velocities and positions (and the start values of the
locals) are. -/
theorem C4_current_modes_ignore_measurements (K : Consts) (P : Planner)
    (U : UsrConfigStruct) (E : Env) (l1 l2 : Locals) (control_mode : Int)
    (velocity1 position1 velocity2 position2 : ℚ) (s : State)
    (hmode : control_mode = CONTROL_MODE_CURRENT ∨ control_mode = CONTROL_MODE_CURRENT_RAMP)
    (hcfg : U.control_mode < CONTROL_MODE_VELOCITY) :
    (CONTROLLER_loop K P U E l1 control_mode velocity1 position1 s).1 =
      (CONTROLLER_loop K P U E l2 control_mode velocity2 position2 s).1 := by
  have hv : ¬ U.control_mode ≥ CONTROL_MODE_VELOCITY := not_le.mpr hcfg
  have hp : ¬ U.control_mode ≥ CONTROL_MODE_POSITION := by
    unfold CONTROL_MODE_POSITION
    unfold CONTROL_MODE_VELOCITY at hcfg
    omega
  rcases hmode with h | h
  · subst h
    simp only [CONTROLLER_loop, preLimit, switchStage, positionStage, velocityStage,
      anticoggingStage, limitStage, if_neg hv, if_neg hp, if_true]
    split_ifs <;> rfl
  · subst h
    have hne : ¬ CONTROL_MODE_CURRENT_RAMP = CONTROL_MODE_CURRENT := by decide
    simp only [CONTROLLER_loop, preLimit, switchStage, positionStage, velocityStage,
      anticoggingStage, limitStage, if_neg hv, if_neg hp, if_neg hne, if_true]
    split_ifs <;> rfl

/-- C4 (witness): configured and argument mode Current, limit 10,
`input_current = 15`: the ticks with measurements (0, 0) and (7, -3) both
return the same command. -/
theorem C4_current_modes_ignore_measurements_witness :
    (CONTROL_MODE_CURRENT = CONTROL_MODE_CURRENT ∨
      CONTROL_MODE_CURRENT = CONTROL_MODE_CURRENT_RAMP) ∧
    exConfig.control_mode < CONTROL_MODE_VELOCITY ∧
    (CONTROLLER_loop exConsts exPlanner exConfig exEnv exLocals CONTROL_MODE_CURRENT 0 0
        exStateDemand).1 =
      (CONTROLLER_loop exConsts exPlanner exConfig exEnv exLocals CONTROL_MODE_CURRENT 7 (-3)
        exStateDemand).1 :=
  ⟨by decide, by decide,
   C4_current_modes_ignore_measurements exConsts exPlanner exConfig exEnv exLocals exLocals
     CONTROL_MODE_CURRENT 0 0 7 (-3) exStateDemand (by decide) (by decide)⟩

/-! ## C5: Current mode -/

/-- C5: with the mode argument and the configured control mode both Current,
anticogging not applied and `current_limit ≥ 0`, one tick sets `mCurrSetPoint` to
`input_current` limited to the range from `-current_limit` to `+current_limit`
(the limit itself when the input is beyond it, the input otherwise), and returns
exactly that value. -/
theorem C5_current_mode_clamps_input (K : Consts) (P : Planner) (U : UsrConfigStruct)
    (E : Env) (l0 : Locals) (velocity position : ℚ) (s : State)
    (hcfg : U.control_mode = CONTROL_MODE_CURRENT)
    (hcog : (U.anticogging_enable && E.AnticoggingValid) = false)
    (hlimit : 0 ≤ U.current_limit) :
    (CONTROLLER_loop K P U E l0 CONTROL_MODE_CURRENT velocity position s).2.mCurrSetPoint =
      (if s.Controller.input_current < -U.current_limit then -U.current_limit
       else if U.current_limit < s.Controller.input_current then U.current_limit
       else s.Controller.input_current) ∧
    (CONTROLLER_loop K P U E l0 CONTROL_MODE_CURRENT velocity position s).1 =
      (CONTROLLER_loop K P U E l0 CONTROL_MODE_CURRENT velocity position s).2.mCurrSetPoint := by
  have hv : ¬ U.control_mode ≥ CONTROL_MODE_VELOCITY := by
    rw [hcfg]
    decide
  have hp : ¬ U.control_mode ≥ CONTROL_MODE_POSITION := by
    rw [hcfg]
    decide
  have hle : -U.current_limit ≤ U.current_limit := by linarith
  have hlo := lower_le_CLAMP s.Controller.input_current (-U.current_limit) U.current_limit hle
  have hhi := CLAMP_le_upper s.Controller.input_current (-U.current_limit) U.current_limit
  constructor
  · rw [loop_mCurrSetPoint, ← CLAMP_eq_ite _ _ _ hle]
    simp [switchStage]
  · rw [loop_mCurrSetPoint]
    simp only [CONTROLLER_loop, preLimit, switchStage, positionStage, velocityStage,
      anticoggingStage, limitStage, if_neg hv, if_neg hp, if_true, hcog]
    simp [not_lt.mpr hlo, not_lt.mpr hhi]

/-- C5 (witness): limit 10 and `input_current = 15` give the set-point and the
returned command 10. -/
theorem C5_current_mode_clamps_input_witness :
    (exConfig.control_mode = CONTROL_MODE_CURRENT ∧
      (exConfig.anticogging_enable && exEnv.AnticoggingValid) = false ∧
      (0 : ℚ) ≤ exConfig.current_limit) ∧
    ((CONTROLLER_loop exConsts exPlanner exConfig exEnv exLocals CONTROL_MODE_CURRENT 0 0
        exStateDemand).2.mCurrSetPoint =
      (if exStateDemand.Controller.input_current < -exConfig.current_limit then
        -exConfig.current_limit
       else if exConfig.current_limit < exStateDemand.Controller.input_current then
        exConfig.current_limit
       else exStateDemand.Controller.input_current) ∧
     (CONTROLLER_loop exConsts exPlanner exConfig exEnv exLocals CONTROL_MODE_CURRENT 0 0
        exStateDemand).1 =
      (CONTROLLER_loop exConsts exPlanner exConfig exEnv exLocals CONTROL_MODE_CURRENT 0 0
        exStateDemand).2.mCurrSetPoint) :=
  ⟨⟨by decide, by decide, by decide⟩,
   C5_current_mode_clamps_input exConsts exPlanner exConfig exEnv exLocals 0 0 exStateDemand
     (by decide) (by decide) (by decide)⟩

/-! ## C6: a saturating input in Current mode and the integrator -/

/-- C6 (the code at the failing input): Current mode, `current_limit = 10`,
`input_current = 15`, `vel_integrator_gain = 1`, tick period 0.01.  The returned
command is 10, but the set-point was already clamped to exactly 10, so the final
limit test `current_des > current_limit` is false and the integrator update runs
with `v_err`, which no statement of this path assigned: for every start value of
the locals the integrator goes from 0 to `0 + (1 * 0.01) * v_err`, and to 0.01
when `v_err` holds 1. -/
theorem C6_current_mode_integrator_uses_unassigned_v_err :
    (∀ l0 : Locals,
      (CONTROLLER_loop exConsts exPlanner exConfig exEnv l0 CONTROL_MODE_CURRENT 0 0
          exStateDemand).1 = 10 ∧
      (CONTROLLER_loop exConsts exPlanner exConfig exEnv l0 CONTROL_MODE_CURRENT 0 0
          exStateDemand).2.vel_integrator = 0 + (1 * (1 / 100)) * l0.v_err) ∧
    exStateDemand.vel_integrator = 0 ∧
    (CONTROLLER_loop exConsts exPlanner exConfig exEnv exLocalsStale CONTROL_MODE_CURRENT 0 0
        exStateDemand).2.vel_integrator = 1 / 100 := by
  refine ⟨fun l0 => ?_, by decide, ?_⟩
  · norm_num [CONTROLLER_loop, preLimit, limitStage, switchStage, positionStage,
      velocityStage, anticoggingStage, CLAMP, exConfig, exStateDemand, exState, exEnv,
      exConsts, CONTROL_MODE_CURRENT, CONTROL_MODE_POSITION, CONTROL_MODE_VELOCITY]
  · norm_num [CONTROLLER_loop, preLimit, limitStage, switchStage, positionStage,
      velocityStage, anticoggingStage, CLAMP, exConfig, exStateDemand, exState, exEnv,
      exConsts, exLocalsStale, CONTROL_MODE_CURRENT, CONTROL_MODE_POSITION,
      CONTROL_MODE_VELOCITY]

/-! ## C7: the set-points and the configured limits -/

/-- C7 (counterexample): from the reset state at position 0 with
`input_velocity = 5`, one Velocity-Ramp tick (velocity limit 5, ramp rate 2, tick
period 0.01, inertia 100, current limit 10) leaves the feed-forward
`mCurrSetPoint = (0.02 / 0.01) * 100 = 200`, outside the range from -10 to 10. -/
theorem C7_counterexample_velocity_ramp_feedforward :
    CONTROLLER_reset 0 exState = exState ∧
    (CONTROLLER_loop exConsts exPlanner exConfigVelocityRamp exEnv exLocals
        CONTROL_MODE_VELOCITY_RAMP 0 0 exStateDemand).2.mCurrSetPoint = 200 ∧
    ¬ (-exConfigVelocityRamp.current_limit ≤
        (CONTROLLER_loop exConsts exPlanner exConfigVelocityRamp exEnv exLocals
          CONTROL_MODE_VELOCITY_RAMP 0 0 exStateDemand).2.mCurrSetPoint ∧
       (CONTROLLER_loop exConsts exPlanner exConfigVelocityRamp exEnv exLocals
          CONTROL_MODE_VELOCITY_RAMP 0 0 exStateDemand).2.mCurrSetPoint ≤
        exConfigVelocityRamp.current_limit) := by
  refine ⟨by decide, ?_, ?_⟩
  · rw [loop_mCurrSetPoint]
    norm_num [switchStage, CLAMP, fabs, abs_div, exConfigVelocityRamp, exConfig,
      exStateDemand, exState, exConsts, CONTROL_MODE_CURRENT, CONTROL_MODE_CURRENT_RAMP,
      CONTROL_MODE_VELOCITY, CONTROL_MODE_VELOCITY_RAMP]
  · rw [loop_mCurrSetPoint]
    norm_num [switchStage, CLAMP, fabs, abs_div, exConfigVelocityRamp, exConfig,
      exStateDemand, exState, exConsts, CONTROL_MODE_CURRENT, CONTROL_MODE_CURRENT_RAMP,
      CONTROL_MODE_VELOCITY, CONTROL_MODE_VELOCITY_RAMP]

/-- C7 (amended): with `vel_limit ≥ 0` and `current_limit ≥ 0`, after a tick
(a) in Current mode `mCurrSetPoint` lies within `±current_limit` and in Velocity
mode `mVelSetPoint` lies within `±vel_limit`, for every starting state;
(b) in every mode other than Position-Trapezoidal, `mVelSetPoint` lies within
`±vel_limit` if it did before the tick;
(c) in every mode other than Velocity-Ramp and Position-Trapezoidal,
`mCurrSetPoint` lies within `±current_limit` if it did before the tick. -/
theorem C7_setpoints_within_limits (K : Consts) (P : Planner) (U : UsrConfigStruct)
    (E : Env) (l0 : Locals) (control_mode : Int) (velocity position : ℚ) (s : State)
    (hvl : 0 ≤ U.vel_limit) (hcl : 0 ≤ U.current_limit) :
    (control_mode = CONTROL_MODE_CURRENT →
      -U.current_limit ≤
          (CONTROLLER_loop K P U E l0 control_mode velocity position s).2.mCurrSetPoint ∧
        (CONTROLLER_loop K P U E l0 control_mode velocity position s).2.mCurrSetPoint ≤
          U.current_limit) ∧
    (control_mode = CONTROL_MODE_VELOCITY →
      -U.vel_limit ≤
          (CONTROLLER_loop K P U E l0 control_mode velocity position s).2.mVelSetPoint ∧
        (CONTROLLER_loop K P U E l0 control_mode velocity position s).2.mVelSetPoint ≤
          U.vel_limit) ∧
    (control_mode ≠ CONTROL_MODE_POSITION_TRAP →
      (-U.vel_limit ≤ s.mVelSetPoint ∧ s.mVelSetPoint ≤ U.vel_limit) →
      -U.vel_limit ≤
          (CONTROLLER_loop K P U E l0 control_mode velocity position s).2.mVelSetPoint ∧
        (CONTROLLER_loop K P U E l0 control_mode velocity position s).2.mVelSetPoint ≤
          U.vel_limit) ∧
    (control_mode ≠ CONTROL_MODE_VELOCITY_RAMP → control_mode ≠ CONTROL_MODE_POSITION_TRAP →
      (-U.current_limit ≤ s.mCurrSetPoint ∧ s.mCurrSetPoint ≤ U.current_limit) →
      -U.current_limit ≤
          (CONTROLLER_loop K P U E l0 control_mode velocity position s).2.mCurrSetPoint ∧
        (CONTROLLER_loop K P U E l0 control_mode velocity position s).2.mCurrSetPoint ≤
          U.current_limit) := by
  have hcle : -U.current_limit ≤ U.current_limit := by linarith
  have hvle : -U.vel_limit ≤ U.vel_limit := by linarith
  have hcur : ∀ x, -U.current_limit ≤ CLAMP x (-U.current_limit) U.current_limit ∧
      CLAMP x (-U.current_limit) U.current_limit ≤ U.current_limit :=
    fun x => ⟨lower_le_CLAMP x _ _ hcle, CLAMP_le_upper x _ _⟩
  have hvel : ∀ x, -U.vel_limit ≤ CLAMP x (-U.vel_limit) U.vel_limit ∧
      CLAMP x (-U.vel_limit) U.vel_limit ≤ U.vel_limit :=
    fun x => ⟨lower_le_CLAMP x _ _ hvle, CLAMP_le_upper x _ _⟩
  rw [loop_mCurrSetPoint, loop_mVelSetPoint]
  refine ⟨?_, ?_, ?_, ?_⟩
  · intro h
    subst h
    rw [switchStage_current]
    exact hcur _
  · intro h
    subst h
    rw [switchStage_velocity]
    exact hvel _
  · intro h5 hs
    by_cases h2 : control_mode = CONTROL_MODE_VELOCITY
    · subst h2
      rw [switchStage_velocity]
      exact hvel _
    · by_cases h3 : control_mode = CONTROL_MODE_VELOCITY_RAMP
      · subst h3
        rw [switchStage_velocity_ramp]
        exact ramp_stays_within _ _ _ _ (abs_nonneg _) hs (hvel _)
      · rw [switchStage_mVelSetPoint_other K P U E control_mode s l0 h2 h3 h5]
        exact hs
  · intro h3 h5 hs
    by_cases h0 : control_mode = CONTROL_MODE_CURRENT
    · subst h0
      rw [switchStage_current]
      exact hcur _
    · by_cases h1 : control_mode = CONTROL_MODE_CURRENT_RAMP
      · subst h1
        rw [switchStage_current_ramp]
        exact ramp_stays_within _ _ _ _ (abs_nonneg _) hs (hcur _)
      · rw [switchStage_mCurrSetPoint_other K P U E control_mode s l0 h0 h1 h3 h5]
        exact hs

/-- C7 (witness): the amended invariant at the example configuration (limits 5
and 10), Current-Ramp mode, from the reset state with demand inputs. -/
theorem C7_setpoints_within_limits_witness :
    ((0 : ℚ) ≤ exConfig.vel_limit ∧ (0 : ℚ) ≤ exConfig.current_limit) ∧
    (-exConfig.current_limit ≤ exStateDemand.mCurrSetPoint ∧
      exStateDemand.mCurrSetPoint ≤ exConfig.current_limit) ∧
    (-exConfig.current_limit ≤
        (CONTROLLER_loop exConsts exPlanner exConfig exEnv exLocals CONTROL_MODE_CURRENT_RAMP
          0 0 exStateDemand).2.mCurrSetPoint ∧
      (CONTROLLER_loop exConsts exPlanner exConfig exEnv exLocals CONTROL_MODE_CURRENT_RAMP
          0 0 exStateDemand).2.mCurrSetPoint ≤ exConfig.current_limit) :=
  ⟨⟨by decide, by decide⟩, by decide,
   (C7_setpoints_within_limits exConsts exPlanner exConfig exEnv exLocals
      CONTROL_MODE_CURRENT_RAMP 0 0 exStateDemand (by decide) (by decide)).2.2.2
      (by decide) (by decide) (by decide)⟩

/-! ## C8: reset -/

/-- C8: for every prior state `s` and position `p`, calling `CONTROLLER_reset`
twice in a row (with `Encoder.pos_estimate_ = p` both times) gives the same state
as calling it once; in that state the integrator is 0, the set-points are
`(p, 0, 0)`, the inputs are `(p, 0, 0)`, the pending-command flag is clear and the
trajectory is marked done. -/
theorem C8_reset_idempotent (p : ℚ) (s : State) :
    CONTROLLER_reset p (CONTROLLER_reset p s) = CONTROLLER_reset p s ∧
    (CONTROLLER_reset p s).vel_integrator = 0 ∧
    (CONTROLLER_reset p s).mPosSetPoint = p ∧
    (CONTROLLER_reset p s).mVelSetPoint = 0 ∧
    (CONTROLLER_reset p s).mCurrSetPoint = 0 ∧
    (CONTROLLER_reset p s).Controller =
      { input_position := p, input_velocity := 0, input_current := 0 } ∧
    (CONTROLLER_reset p s).input_pos_updated = false ∧
    (CONTROLLER_reset p s).Traj.trajectory_done = true :=
  ⟨rfl, rfl, rfl, rfl, rfl, rfl, rfl, rfl⟩

/-! ## C9: the first tick after a reset -/

/-- C9 (counterexample): the cascade is gated on the configured control mode.
With the configured mode Current and the mode argument Position, after
`CONTROLLER_reset` at position 2 a tick measuring position 2 and velocity 0
(anticogging off, limits 5 and 10) assigns neither `current_des` nor `v_err`: with
start values 5 and 1 it returns 5 and moves the integrator from 0 to 0.01. -/
theorem C9_counterexample_configured_current :
    (exConfig.control_mode = CONTROL_MODE_CURRENT ∧
      (exConfig.anticogging_enable && exEnv.AnticoggingValid) = false ∧
      (0 : ℚ) ≤ exConfig.vel_limit ∧ (0 : ℚ) ≤ exConfig.current_limit) ∧
    (CONTROLLER_loop exConsts exPlanner exConfig exEnv exLocalsJunk CONTROL_MODE_POSITION 0 2
        (CONTROLLER_reset 2 exStateStale)).1 = 5 ∧
    (CONTROLLER_loop exConsts exPlanner exConfig exEnv exLocalsJunk CONTROL_MODE_POSITION 0 2
        (CONTROLLER_reset 2 exStateStale)).2.vel_integrator = 1 / 100 ∧
    ¬ ((CONTROLLER_loop exConsts exPlanner exConfig exEnv exLocalsJunk CONTROL_MODE_POSITION
          0 2 (CONTROLLER_reset 2 exStateStale)).1 = 0 ∧
       (CONTROLLER_loop exConsts exPlanner exConfig exEnv exLocalsJunk CONTROL_MODE_POSITION
          0 2 (CONTROLLER_reset 2 exStateStale)).2.vel_integrator = 0) := by
  refine ⟨⟨by decide, by decide, by decide, by decide⟩, ?_, ?_, ?_⟩ <;>
    norm_num [CONTROLLER_loop, preLimit, limitStage, switchStage, positionStage,
      velocityStage, anticoggingStage, CONTROLLER_reset, exConfig, exStateStale, exEnv,
      exConsts, exLocalsJunk, CONTROL_MODE_CURRENT, CONTROL_MODE_CURRENT_RAMP,
      CONTROL_MODE_VELOCITY, CONTROL_MODE_VELOCITY_RAMP, CONTROL_MODE_POSITION]

/-- C9 (amended): for every prior state `s`, after `CONTROLLER_reset` at position
`p`, a tick with the mode argument Position or Position-Trapezoidal, the configured
control mode also at least Position (Position or Position-Trapezoidal), `measured_position = p`, `measured_velocity = 0`,
anticogging not applied, `vel_limit ≥ 0` and `current_limit ≥ 0` returns 0, leaves
the set-points at `(p, 0, 0)` and leaves the integrator at 0. -/
theorem C9_no_jump_after_reset (K : Consts) (P : Planner) (U : UsrConfigStruct) (E : Env)
    (l0 : Locals) (control_mode : Int) (p : ℚ) (s : State)
    (hmode : control_mode = CONTROL_MODE_POSITION ∨ control_mode = CONTROL_MODE_POSITION_TRAP)
    (hcfg : U.control_mode ≥ CONTROL_MODE_POSITION)
    (hcog : (U.anticogging_enable && E.AnticoggingValid) = false)
    (hvl : 0 ≤ U.vel_limit) (hcl : 0 ≤ U.current_limit) :
    (CONTROLLER_loop K P U E l0 control_mode 0 p (CONTROLLER_reset p s)).1 = 0 ∧
    (CONTROLLER_loop K P U E l0 control_mode 0 p (CONTROLLER_reset p s)).2.mPosSetPoint = p ∧
    (CONTROLLER_loop K P U E l0 control_mode 0 p (CONTROLLER_reset p s)).2.mVelSetPoint = 0 ∧
    (CONTROLLER_loop K P U E l0 control_mode 0 p (CONTROLLER_reset p s)).2.mCurrSetPoint = 0 ∧
    (CONTROLLER_loop K P U E l0 control_mode 0 p (CONTROLLER_reset p s)).2.vel_integrator =
      0 := by
  have hv : U.control_mode ≥ CONTROL_MODE_VELOCITY := by
    unfold CONTROL_MODE_VELOCITY
    unfold CONTROL_MODE_POSITION at hcfg
    omega
  have hsw : (switchStage K P U E control_mode (CONTROLLER_reset p s) l0).1 =
      CONTROLLER_reset p s := by
    rcases hmode with h | h
    · subst h
      simp [switchStage, CONTROLLER_reset, CONTROL_MODE_POSITION, CONTROL_MODE_CURRENT,
        CONTROL_MODE_CURRENT_RAMP, CONTROL_MODE_VELOCITY, CONTROL_MODE_VELOCITY_RAMP]
    · subst h
      rw [switchStage_trap]
      exact trapCase_done_idle K P U E _ rfl rfl
  have hpre : (preLimit K P U E l0 control_mode 0 p (CONTROLLER_reset p s)).2.current_des = 0 ∧
      (preLimit K P U E l0 control_mode 0 p (CONTROLLER_reset p s)).2.v_err = 0 := by
    simp only [preLimit, hsw, positionStage, velocityStage, anticoggingStage, if_pos hcfg,
      if_pos hv, hcog]
    simp [CONTROLLER_reset, CLAMP_zero_symm U.vel_limit hvl]
  have hlim : (CONTROLLER_loop K P U E l0 control_mode 0 p (CONTROLLER_reset p s)) =
      (0, CONTROLLER_reset p s) := by
    have hfst : (preLimit K P U E l0 control_mode 0 p (CONTROLLER_reset p s)).1 =
        CONTROLLER_reset p s := hsw
    simp only [CONTROLLER_loop, limitStage, hpre.1, hpre.2, hfst]
    have h1 : ¬ (0 : ℚ) < -U.current_limit := by
      intro h
      linarith
    have h2 : ¬ (0 : ℚ) > U.current_limit := not_lt.mpr hcl
    rw [if_neg h1, if_neg h2]
    simp [CONTROLLER_reset]
  rw [hlim]
  exact ⟨rfl, rfl, rfl, rfl, rfl⟩

/-- C9 (witness): from the stale example state, reset at position 2 and one
Position-mode tick measuring position 2 and velocity 0. -/
theorem C9_no_jump_after_reset_witness :
    ((CONTROL_MODE_POSITION = CONTROL_MODE_POSITION ∨
        CONTROL_MODE_POSITION = CONTROL_MODE_POSITION_TRAP) ∧
      exConfigPosition.control_mode ≥ CONTROL_MODE_POSITION ∧
      (exConfigPosition.anticogging_enable && exEnv.AnticoggingValid) = false ∧
      (0 : ℚ) ≤ exConfigPosition.vel_limit ∧ (0 : ℚ) ≤ exConfigPosition.current_limit) ∧
    ((CONTROLLER_loop exConsts exPlanner exConfigPosition exEnv exLocalsStale
        CONTROL_MODE_POSITION 0 2 (CONTROLLER_reset 2 exStateStale)).1 = 0 ∧
     (CONTROLLER_loop exConsts exPlanner exConfigPosition exEnv exLocalsStale
        CONTROL_MODE_POSITION 0 2 (CONTROLLER_reset 2 exStateStale)).2.mPosSetPoint = 2 ∧
     (CONTROLLER_loop exConsts exPlanner exConfigPosition exEnv exLocalsStale
        CONTROL_MODE_POSITION 0 2 (CONTROLLER_reset 2 exStateStale)).2.mVelSetPoint = 0 ∧
     (CONTROLLER_loop exConsts exPlanner exConfigPosition exEnv exLocalsStale
        CONTROL_MODE_POSITION 0 2 (CONTROLLER_reset 2 exStateStale)).2.mCurrSetPoint = 0 ∧
     (CONTROLLER_loop exConsts exPlanner exConfigPosition exEnv exLocalsStale
        CONTROL_MODE_POSITION 0 2 (CONTROLLER_reset 2 exStateStale)).2.vel_integrator = 0) :=
  ⟨⟨by decide, by decide, by decide, by decide, by decide⟩,
   C9_no_jump_after_reset exConsts exPlanner exConfigPosition exEnv exLocalsStale
     CONTROL_MODE_POSITION 2 exStateStale (by decide) (by decide) (by decide) (by decide)
     (by decide)⟩

/-! ## C10: trajectory completion is terminal -/

/-- C10: in Position-Trapezoidal mode, from a tracking state (trajectory not done,
no command pending) whose elapsed time `Traj.t` is greater than the duration
`Traj.Tf_`, after any number `n ≥ 1` of consecutive ticks (nothing but the ticks
touches the state, so no new command is submitted and `input_position` is not
modified) the set-points equal `(input_position, 0, 0)` exactly, the trajectory is
marked done, `input_position` is what it was and no command is pending. -/
theorem C10_trajectory_completion_terminal (K : Consts) (P : Planner) (U : UsrConfigStruct)
    (ticks : List TickInput) (s : State) (hn : 1 ≤ ticks.length)
    (hdone : s.Traj.trajectory_done = false) (hpend : s.input_pos_updated = false)
    (ht : s.Traj.t > s.Traj.Tf_) :
    (runTicks K P U CONTROL_MODE_POSITION_TRAP ticks s).mPosSetPoint =
      s.Controller.input_position ∧
    (runTicks K P U CONTROL_MODE_POSITION_TRAP ticks s).mVelSetPoint = 0 ∧
    (runTicks K P U CONTROL_MODE_POSITION_TRAP ticks s).mCurrSetPoint = 0 ∧
    (runTicks K P U CONTROL_MODE_POSITION_TRAP ticks s).Traj.trajectory_done = true ∧
    (runTicks K P U CONTROL_MODE_POSITION_TRAP ticks s).Controller.input_position =
      s.Controller.input_position ∧
    (runTicks K P U CONTROL_MODE_POSITION_TRAP ticks s).input_pos_updated = false := by
  cases ticks with
  | nil => exact absurd hn (by decide)
  | cons i rest =>
    have hfirst : Settled s.Controller.input_position
        (CONTROLLER_loop K P U i.env i.locals CONTROL_MODE_POSITION_TRAP
          i.velocity i.position s).2 := by
      unfold Settled
      rw [loop_Controller, loop_mPosSetPoint, loop_mVelSetPoint, loop_mCurrSetPoint,
        loop_Traj, loop_input_pos_updated, switchStage_trap,
        trapCase_expired K P U i.env s hdone hpend ht]
      exact ⟨rfl, rfl, rfl, rfl, rfl, hpend⟩
    have h := runTicks_trap_settled K P U s.Controller.input_position rest _ hfirst
    obtain ⟨h1, h2, h3, h4, h5, h6⟩ := h
    exact ⟨h2, h3, h4, h5, h1, h6⟩

/-- C10 (witness): two ticks from the expired example state end with the
set-points `(40, 0, 0)` and the trajectory done. -/
theorem C10_trajectory_completion_terminal_witness :
    (1 ≤ exTicks.length ∧ exStateExpired.Traj.trajectory_done = false ∧
      exStateExpired.input_pos_updated = false ∧
      exStateExpired.Traj.t > exStateExpired.Traj.Tf_) ∧
    ((runTicks exConsts exPlanner exConfig CONTROL_MODE_POSITION_TRAP exTicks
        exStateExpired).mPosSetPoint = exStateExpired.Controller.input_position ∧
     (runTicks exConsts exPlanner exConfig CONTROL_MODE_POSITION_TRAP exTicks
        exStateExpired).mVelSetPoint = 0 ∧
     (runTicks exConsts exPlanner exConfig CONTROL_MODE_POSITION_TRAP exTicks
        exStateExpired).mCurrSetPoint = 0 ∧
     (runTicks exConsts exPlanner exConfig CONTROL_MODE_POSITION_TRAP exTicks
        exStateExpired).Traj.trajectory_done = true ∧
     (runTicks exConsts exPlanner exConfig CONTROL_MODE_POSITION_TRAP exTicks
        exStateExpired).Controller.input_position =
      exStateExpired.Controller.input_position ∧
     (runTicks exConsts exPlanner exConfig CONTROL_MODE_POSITION_TRAP exTicks
        exStateExpired).input_pos_updated = false) :=
  ⟨⟨by decide, by decide, by decide, by decide⟩,
   C10_trajectory_completion_terminal exConsts exPlanner exConfig exTicks exStateExpired
     (by decide) (by decide) (by decide) (by decide)⟩

/-! ## Further helper lemmas: the trapezoidal case -/

/-- With a command pending and a planned duration `≥ 0`, the trapezoidal case
plans from the set-points it finds, restarts the clock at 0, evaluates the new
curve there and stays in the tracking state. -/
theorem trapCase_pending_start (K : Consts) (P : Planner) (U : UsrConfigStruct) (E : Env)
    (s : State) (hpend : s.input_pos_updated = true)
    (hTf : 0 ≤ (P.plan s.Controller.input_position s.mPosSetPoint s.mVelSetPoint
      U.traj_vel U.traj_accel U.traj_decel).1) :
    trapCase K P U E s =
      { s with
        input_pos_updated := false
        mPosSetPoint := (P.eval (P.plan s.Controller.input_position s.mPosSetPoint
          s.mVelSetPoint U.traj_vel U.traj_accel U.traj_decel).2 0).1
        mVelSetPoint := (P.eval (P.plan s.Controller.input_position s.mPosSetPoint
          s.mVelSetPoint U.traj_vel U.traj_accel U.traj_decel).2 0).2.1
        mCurrSetPoint := (P.eval (P.plan s.Controller.input_position s.mPosSetPoint
          s.mVelSetPoint U.traj_vel U.traj_accel U.traj_decel).2 0).2.2 * U.inertia
        Traj :=
          { Y := (P.eval (P.plan s.Controller.input_position s.mPosSetPoint
              s.mVelSetPoint U.traj_vel U.traj_accel U.traj_decel).2 0).1
            Yd := (P.eval (P.plan s.Controller.input_position s.mPosSetPoint
              s.mVelSetPoint U.traj_vel U.traj_accel U.traj_decel).2 0).2.1
            Ydd := (P.eval (P.plan s.Controller.input_position s.mPosSetPoint
              s.mVelSetPoint U.traj_vel U.traj_accel U.traj_decel).2 0).2.2
            Tf_ := (P.plan s.Controller.input_position s.mPosSetPoint s.mVelSetPoint
              U.traj_vel U.traj_accel U.traj_decel).1
            t := if fabs ((P.eval (P.plan s.Controller.input_position s.mPosSetPoint
                s.mVelSetPoint U.traj_vel U.traj_accel U.traj_decel).2 0).1
                - E.pos_estimate_) < 1 then 0 + K.DT else 0
            trajectory_done := false
            profile := (P.plan s.Controller.input_position s.mPosSetPoint s.mVelSetPoint
              U.traj_vel U.traj_accel U.traj_decel).2 } } := by
  simp only [trapCase, move_to_pos, TRAJ_plan, TRAJ_eval, hpend, if_true]
  rw [if_neg (by simp), if_neg (not_lt.mpr hTf)]
  split_ifs <;> rfl

/-- The trapezoidal case always leaves the pending flag clear. -/
theorem trapCase_input_pos_updated (K : Consts) (P : Planner) (U : UsrConfigStruct) (E : Env)
    (s : State) : (trapCase K P U E s).input_pos_updated = false := by
  cases hpend : s.input_pos_updated
  · simp only [trapCase, TRAJ_eval, hpend, Bool.false_eq_true, if_false]
    split_ifs <;> first | rfl | exact hpend
  · simp only [trapCase, move_to_pos, TRAJ_plan, TRAJ_eval, hpend, if_true]
    split_ifs <;> rfl

/-- With no command pending the trapezoidal case keeps the planned duration and
curve. -/
theorem trapCase_plan_kept (K : Consts) (P : Planner) (U : UsrConfigStruct) (E : Env)
    (s : State) (hpend : s.input_pos_updated = false) :
    (trapCase K P U E s).Traj.Tf_ = s.Traj.Tf_ ∧
      (trapCase K P U E s).Traj.profile = s.Traj.profile := by
  simp only [trapCase, TRAJ_eval, hpend, Bool.false_eq_true, if_false]
  split_ifs <;> exact ⟨rfl, rfl⟩

/-! ## C11: trajectory start -/

/-- C11: after `CONTROLLER_move_to_pos target` (in particular while the trajectory
is done), the next Position-Trapezoidal tick invokes the planner exactly once, with
(target, the position and velocity set-points held before the tick, `traj_vel`,
`traj_accel`, `traj_decel`); stores the planned duration and curve; resets the
elapsed time to 0, so that the set-points are the curve evaluated at elapsed time 0
(the clock then advances by `DT` if the error gate permits); clears the pending
flag; and, for a planned duration `≥ 0`, leaves the trajectory not done. -/
theorem C11_trajectory_start (K : Consts) (P : Planner) (U : UsrConfigStruct) (E : Env)
    (l0 : Locals) (velocity position target : ℚ) (s : State)
    (hTf : 0 ≤ (planFrom P U target s).1) :
    plannerCalls U CONTROL_MODE_POSITION_TRAP (CONTROLLER_move_to_pos target s) =
      [{ Xf := target, Xi := s.mPosSetPoint, Vi := s.mVelSetPoint, Vmax := U.traj_vel,
         Amax := U.traj_accel, Dmax := U.traj_decel }] ∧
    (CONTROLLER_loop K P U E l0 CONTROL_MODE_POSITION_TRAP velocity position
        (CONTROLLER_move_to_pos target s)).2.Traj.Tf_ = (planFrom P U target s).1 ∧
    (CONTROLLER_loop K P U E l0 CONTROL_MODE_POSITION_TRAP velocity position
        (CONTROLLER_move_to_pos target s)).2.Traj.profile = (planFrom P U target s).2 ∧
    (CONTROLLER_loop K P U E l0 CONTROL_MODE_POSITION_TRAP velocity position
        (CONTROLLER_move_to_pos target s)).2.mPosSetPoint =
      (P.eval (planFrom P U target s).2 0).1 ∧
    (CONTROLLER_loop K P U E l0 CONTROL_MODE_POSITION_TRAP velocity position
        (CONTROLLER_move_to_pos target s)).2.mVelSetPoint =
      (P.eval (planFrom P U target s).2 0).2.1 ∧
    (CONTROLLER_loop K P U E l0 CONTROL_MODE_POSITION_TRAP velocity position
        (CONTROLLER_move_to_pos target s)).2.mCurrSetPoint =
      (P.eval (planFrom P U target s).2 0).2.2 * U.inertia ∧
    (CONTROLLER_loop K P U E l0 CONTROL_MODE_POSITION_TRAP velocity position
        (CONTROLLER_move_to_pos target s)).2.Traj.t =
      (if fabs ((P.eval (planFrom P U target s).2 0).1 - E.pos_estimate_) < 1
        then 0 + K.DT else 0) ∧
    (CONTROLLER_loop K P U E l0 CONTROL_MODE_POSITION_TRAP velocity position
        (CONTROLLER_move_to_pos target s)).2.input_pos_updated = false ∧
    (CONTROLLER_loop K P U E l0 CONTROL_MODE_POSITION_TRAP velocity position
        (CONTROLLER_move_to_pos target s)).2.Traj.trajectory_done = false := by
  have htrap := trapCase_pending_start K P U E (CONTROLLER_move_to_pos target s) rfl hTf
  rw [loop_Traj, loop_mPosSetPoint, loop_mVelSetPoint, loop_mCurrSetPoint,
    loop_input_pos_updated, switchStage_trap, htrap]
  exact ⟨rfl, rfl, rfl, rfl, rfl, rfl, rfl, rfl, rfl⟩

/-- C11 (witness): from the reset state at 0, a command to 40 and one
Position-Trapezoidal tick with a planner of duration 1. -/
theorem C11_trajectory_start_witness :
    (0 : ℚ) ≤ (planFrom exPlannerMoving exConfig 40 exState).1 ∧
    (plannerCalls exConfig CONTROL_MODE_POSITION_TRAP (CONTROLLER_move_to_pos 40 exState) =
      [{ Xf := 40, Xi := exState.mPosSetPoint, Vi := exState.mVelSetPoint,
         Vmax := exConfig.traj_vel, Amax := exConfig.traj_accel,
         Dmax := exConfig.traj_decel }] ∧
    (CONTROLLER_loop exConsts exPlannerMoving exConfig exEnv exLocals
        CONTROL_MODE_POSITION_TRAP 0 0 (CONTROLLER_move_to_pos 40 exState)).2.Traj.Tf_ =
      (planFrom exPlannerMoving exConfig 40 exState).1 ∧
    (CONTROLLER_loop exConsts exPlannerMoving exConfig exEnv exLocals
        CONTROL_MODE_POSITION_TRAP 0 0 (CONTROLLER_move_to_pos 40 exState)).2.Traj.profile =
      (planFrom exPlannerMoving exConfig 40 exState).2 ∧
    (CONTROLLER_loop exConsts exPlannerMoving exConfig exEnv exLocals
        CONTROL_MODE_POSITION_TRAP 0 0 (CONTROLLER_move_to_pos 40 exState)).2.mPosSetPoint =
      (exPlannerMoving.eval (planFrom exPlannerMoving exConfig 40 exState).2 0).1 ∧
    (CONTROLLER_loop exConsts exPlannerMoving exConfig exEnv exLocals
        CONTROL_MODE_POSITION_TRAP 0 0 (CONTROLLER_move_to_pos 40 exState)).2.mVelSetPoint =
      (exPlannerMoving.eval (planFrom exPlannerMoving exConfig 40 exState).2 0).2.1 ∧
    (CONTROLLER_loop exConsts exPlannerMoving exConfig exEnv exLocals
        CONTROL_MODE_POSITION_TRAP 0 0 (CONTROLLER_move_to_pos 40 exState)).2.mCurrSetPoint =
      (exPlannerMoving.eval (planFrom exPlannerMoving exConfig 40 exState).2 0).2.2 *
        exConfig.inertia ∧
    (CONTROLLER_loop exConsts exPlannerMoving exConfig exEnv exLocals
        CONTROL_MODE_POSITION_TRAP 0 0 (CONTROLLER_move_to_pos 40 exState)).2.Traj.t =
      (if fabs ((exPlannerMoving.eval (planFrom exPlannerMoving exConfig 40 exState).2 0).1
          - exEnv.pos_estimate_) < 1
        then 0 + exConsts.DT else 0) ∧
    (CONTROLLER_loop exConsts exPlannerMoving exConfig exEnv exLocals
        CONTROL_MODE_POSITION_TRAP 0 0
        (CONTROLLER_move_to_pos 40 exState)).2.input_pos_updated = false ∧
    (CONTROLLER_loop exConsts exPlannerMoving exConfig exEnv exLocals
        CONTROL_MODE_POSITION_TRAP 0 0
        (CONTROLLER_move_to_pos 40 exState)).2.Traj.trajectory_done = false) :=
  ⟨by decide,
   C11_trajectory_start exConsts exPlannerMoving exConfig exEnv exLocals 0 0 40 exState
     (by decide)⟩

/-! ## C12: submitting a position command -/

/-- C12: `CONTROLLER_move_to_pos target` sets `input_position` to `target` and
raises the pending flag, and leaves the set-points, the integrator,
`input_velocity`, `input_current` and `Traj` as they were.  The flag is consumed
once: the first Position-Trapezoidal tick after it clears the flag, and a second
Position-Trapezoidal tick makes no planner invocation and keeps the planned
duration and curve of the first. -/
theorem C12_move_to_pos_frame_and_single_consumption (K : Consts) (P : Planner)
    (U : UsrConfigStruct) (E1 E2 : Env) (l1 l2 : Locals)
    (velocity1 position1 velocity2 position2 target : ℚ) (s : State) :
    (CONTROLLER_move_to_pos target s).Controller.input_position = target ∧
    (CONTROLLER_move_to_pos target s).input_pos_updated = true ∧
    (CONTROLLER_move_to_pos target s).mPosSetPoint = s.mPosSetPoint ∧
    (CONTROLLER_move_to_pos target s).mVelSetPoint = s.mVelSetPoint ∧
    (CONTROLLER_move_to_pos target s).mCurrSetPoint = s.mCurrSetPoint ∧
    (CONTROLLER_move_to_pos target s).vel_integrator = s.vel_integrator ∧
    (CONTROLLER_move_to_pos target s).Controller.input_velocity =
      s.Controller.input_velocity ∧
    (CONTROLLER_move_to_pos target s).Controller.input_current =
      s.Controller.input_current ∧
    (CONTROLLER_move_to_pos target s).Traj = s.Traj ∧
    plannerCalls U CONTROL_MODE_POSITION_TRAP (CONTROLLER_move_to_pos target s) =
      [{ Xf := target, Xi := s.mPosSetPoint, Vi := s.mVelSetPoint, Vmax := U.traj_vel,
         Amax := U.traj_accel, Dmax := U.traj_decel }] ∧
    (CONTROLLER_loop K P U E1 l1 CONTROL_MODE_POSITION_TRAP velocity1 position1
        (CONTROLLER_move_to_pos target s)).2.input_pos_updated = false ∧
    plannerCalls U CONTROL_MODE_POSITION_TRAP
        (CONTROLLER_loop K P U E1 l1 CONTROL_MODE_POSITION_TRAP velocity1 position1
          (CONTROLLER_move_to_pos target s)).2 = [] ∧
    (CONTROLLER_loop K P U E2 l2 CONTROL_MODE_POSITION_TRAP velocity2 position2
        (CONTROLLER_loop K P U E1 l1 CONTROL_MODE_POSITION_TRAP velocity1 position1
          (CONTROLLER_move_to_pos target s)).2).2.Traj.Tf_ =
      (CONTROLLER_loop K P U E1 l1 CONTROL_MODE_POSITION_TRAP velocity1 position1
          (CONTROLLER_move_to_pos target s)).2.Traj.Tf_ ∧
    (CONTROLLER_loop K P U E2 l2 CONTROL_MODE_POSITION_TRAP velocity2 position2
        (CONTROLLER_loop K P U E1 l1 CONTROL_MODE_POSITION_TRAP velocity1 position1
          (CONTROLLER_move_to_pos target s)).2).2.Traj.profile =
      (CONTROLLER_loop K P U E1 l1 CONTROL_MODE_POSITION_TRAP velocity1 position1
          (CONTROLLER_move_to_pos target s)).2.Traj.profile := by
  have hclear : (CONTROLLER_loop K P U E1 l1 CONTROL_MODE_POSITION_TRAP velocity1 position1
      (CONTROLLER_move_to_pos target s)).2.input_pos_updated = false := by
    rw [loop_input_pos_updated, switchStage_trap]
    exact trapCase_input_pos_updated K P U E1 _
  have hkept := trapCase_plan_kept K P U E2 _ hclear
  refine ⟨rfl, rfl, rfl, rfl, rfl, rfl, rfl, rfl, rfl, rfl, hclear, ?_, ?_, ?_⟩
  · simp [plannerCalls, hclear]
  · rw [loop_Traj K P U E2, switchStage_trap]
    exact hkept.1
  · rw [loop_Traj K P U E2, switchStage_trap]
    exact hkept.2

/-! ## Further helper lemmas: the ramp cases -/

/-- The Velocity-Ramp case stores the feed-forward current `(step / DT) * inertia`. -/
theorem switchStage_velocity_ramp_current (K : Consts) (P : Planner) (U : UsrConfigStruct)
    (E : Env) (s : State) (l : Locals) :
    (switchStage K P U E CONTROL_MODE_VELOCITY_RAMP s l).1.mCurrSetPoint =
      (CLAMP (CLAMP s.Controller.input_velocity (-U.vel_limit) U.vel_limit - s.mVelSetPoint)
          (-fabs (K.DT * U.vel_ramp_rate)) (fabs (K.DT * U.vel_ramp_rate)) / K.DT) *
        U.inertia := by
  simp [switchStage, CONTROL_MODE_VELOCITY_RAMP, CONTROL_MODE_CURRENT,
    CONTROL_MODE_CURRENT_RAMP, CONTROL_MODE_VELOCITY]

/-- A step clamped to the range from 0 to 0 is zero. -/
theorem CLAMP_zero_range (d : ℚ) : CLAMP d 0 0 = 0 := by
  unfold CLAMP
  rcases le_total d 0 with h | h
  · rw [max_eq_right h, min_self]
  · rw [max_eq_left h, min_eq_left h]

/-! ## C13: the Velocity-Ramp update -/

/-- C13: for a tick period `DT ≠ 0` and every prior `mVelSetPoint = v`, after one
Velocity-Ramp tick `mVelSetPoint = v + step` with
`step = CLAMP (CLAMP input_velocity (-vel_limit) vel_limit - v) (-|DT * vel_ramp_rate|)
|DT * vel_ramp_rate|`, and `mCurrSetPoint = (step / DT) * inertia`.  In particular with
`vel_limit = 5`, `vel_ramp_rate = 2`, tick period 0.01, `v = 0` and
`input_velocity = 5` the velocity set-point after one tick is 0.02, not 5. -/
theorem C13_velocity_ramp_update (K : Consts) (P : Planner) (U : UsrConfigStruct) (E : Env)
    (l0 : Locals) (velocity position : ℚ) (s : State) (_hDT : K.DT ≠ 0) :
    (CONTROLLER_loop K P U E l0 CONTROL_MODE_VELOCITY_RAMP velocity position s).2.mVelSetPoint =
      s.mVelSetPoint +
        CLAMP (CLAMP s.Controller.input_velocity (-U.vel_limit) U.vel_limit - s.mVelSetPoint)
          (-|K.DT * U.vel_ramp_rate|) |K.DT * U.vel_ramp_rate| ∧
    (CONTROLLER_loop K P U E l0 CONTROL_MODE_VELOCITY_RAMP velocity position s).2.mCurrSetPoint =
      (CLAMP (CLAMP s.Controller.input_velocity (-U.vel_limit) U.vel_limit - s.mVelSetPoint)
          (-|K.DT * U.vel_ramp_rate|) |K.DT * U.vel_ramp_rate| / K.DT) * U.inertia ∧
    (CONTROLLER_loop exConsts exPlanner exConfigVelocityRamp exEnv exLocals
        CONTROL_MODE_VELOCITY_RAMP 0 0 exStateDemand).2.mVelSetPoint = 2 / 100 ∧
    (CONTROLLER_loop exConsts exPlanner exConfigVelocityRamp exEnv exLocals
        CONTROL_MODE_VELOCITY_RAMP 0 0 exStateDemand).2.mVelSetPoint ≠ 5 := by
  refine ⟨?_, ?_, ?_, ?_⟩
  · rw [loop_mVelSetPoint, switchStage_velocity_ramp]
    rfl
  · rw [loop_mCurrSetPoint, switchStage_velocity_ramp_current]
    rfl
  · rw [loop_mVelSetPoint, switchStage_velocity_ramp]
    norm_num [CLAMP, fabs, abs_div, exConfigVelocityRamp, exConfig, exStateDemand, exState,
      exConsts]
  · rw [loop_mVelSetPoint, switchStage_velocity_ramp]
    norm_num [CLAMP, fabs, abs_div, exConfigVelocityRamp, exConfig, exStateDemand, exState,
      exConsts]

/-- C13 (witness): the scenario itself: tick period 0.01, velocity limit 5, ramp
rate 2, set-point 0, `input_velocity = 5`. -/
theorem C13_velocity_ramp_update_witness :
    exConsts.DT ≠ 0 ∧
    ((CONTROLLER_loop exConsts exPlanner exConfigVelocityRamp exEnv exLocals
        CONTROL_MODE_VELOCITY_RAMP 0 0 exStateDemand).2.mVelSetPoint =
      exStateDemand.mVelSetPoint +
        CLAMP (CLAMP exStateDemand.Controller.input_velocity (-exConfigVelocityRamp.vel_limit)
            exConfigVelocityRamp.vel_limit - exStateDemand.mVelSetPoint)
          (-|exConsts.DT * exConfigVelocityRamp.vel_ramp_rate|)
          |exConsts.DT * exConfigVelocityRamp.vel_ramp_rate| ∧
    (CONTROLLER_loop exConsts exPlanner exConfigVelocityRamp exEnv exLocals
        CONTROL_MODE_VELOCITY_RAMP 0 0 exStateDemand).2.mCurrSetPoint =
      (CLAMP (CLAMP exStateDemand.Controller.input_velocity (-exConfigVelocityRamp.vel_limit)
            exConfigVelocityRamp.vel_limit - exStateDemand.mVelSetPoint)
          (-|exConsts.DT * exConfigVelocityRamp.vel_ramp_rate|)
          |exConsts.DT * exConfigVelocityRamp.vel_ramp_rate| / exConsts.DT) *
        exConfigVelocityRamp.inertia ∧
    (CONTROLLER_loop exConsts exPlanner exConfigVelocityRamp exEnv exLocals
        CONTROL_MODE_VELOCITY_RAMP 0 0 exStateDemand).2.mVelSetPoint = 2 / 100 ∧
    (CONTROLLER_loop exConsts exPlanner exConfigVelocityRamp exEnv exLocals
        CONTROL_MODE_VELOCITY_RAMP 0 0 exStateDemand).2.mVelSetPoint ≠ 5) :=
  ⟨by norm_num [exConsts],
   C13_velocity_ramp_update exConsts exPlanner exConfigVelocityRamp exEnv exLocals 0 0
     exStateDemand (by norm_num [exConsts])⟩

/-! ## C14: degenerate ramp rates -/

/-- C14 (counterexample): a negative ramp rate does not stop the ramp.  With
`current_ramp_rate = -2`, tick period 0.01, limit 10, `input_current = 15` and
`mCurrSetPoint = 0`, one Current-Ramp tick moves the set-point to 0.02. -/
theorem C14_counterexample_negative_rate_moves :
    exConfigNegRate.current_ramp_rate ≤ 0 ∧
    exStateDemand.mCurrSetPoint = 0 ∧
    (CONTROLLER_loop exConsts exPlanner exConfigNegRate exEnv exLocals
        CONTROL_MODE_CURRENT_RAMP 0 0 exStateDemand).2.mCurrSetPoint = 2 / 100 ∧
    (CONTROLLER_loop exConsts exPlanner exConfigNegRate exEnv exLocals
        CONTROL_MODE_CURRENT_RAMP 0 0 exStateDemand).2.mCurrSetPoint ≠
      exStateDemand.mCurrSetPoint := by
  refine ⟨by decide, by decide, ?_, ?_⟩
  · rw [loop_mCurrSetPoint, switchStage_current_ramp]
    norm_num [CLAMP, fabs, abs_div, exConfigNegRate, exConfig, exStateDemand, exState,
      exConsts]
  · rw [loop_mCurrSetPoint, switchStage_current_ramp]
    norm_num [CLAMP, fabs, abs_div, exConfigNegRate, exConfig, exStateDemand, exState,
      exConsts]

/-- C14 (amended): zero ramp rate means no motion.  For a tick period `DT ≠ 0` and
every state and input: when `current_ramp_rate = 0` a Current-Ramp tick leaves
`mCurrSetPoint` unchanged; when `vel_ramp_rate = 0` a Velocity-Ramp tick leaves
`mVelSetPoint` unchanged and stores the feed-forward `(0 / DT) * inertia = 0`, the
divisor being the constant `DT`.  A negative rate is taken by magnitude: the tick
moves the set-point exactly as with the rate of opposite sign. -/
theorem C14_zero_rate_no_motion (K : Consts) (P : Planner) (U : UsrConfigStruct) (E : Env)
    (l0 : Locals) (velocity position : ℚ) (s : State) (_hDT : K.DT ≠ 0) :
    (U.current_ramp_rate = 0 →
      (CONTROLLER_loop K P U E l0 CONTROL_MODE_CURRENT_RAMP velocity position s).2.mCurrSetPoint
        = s.mCurrSetPoint) ∧
    (U.vel_ramp_rate = 0 →
      (CONTROLLER_loop K P U E l0 CONTROL_MODE_VELOCITY_RAMP velocity position s).2.mVelSetPoint
          = s.mVelSetPoint ∧
        (CONTROLLER_loop K P U E l0 CONTROL_MODE_VELOCITY_RAMP velocity position
          s).2.mCurrSetPoint = 0) ∧
    (CONTROLLER_loop K P { U with current_ramp_rate := -U.current_ramp_rate } E l0
        CONTROL_MODE_CURRENT_RAMP velocity position s).2.mCurrSetPoint =
      (CONTROLLER_loop K P U E l0 CONTROL_MODE_CURRENT_RAMP velocity position
        s).2.mCurrSetPoint ∧
    (CONTROLLER_loop K P { U with vel_ramp_rate := -U.vel_ramp_rate } E l0
        CONTROL_MODE_VELOCITY_RAMP velocity position s).2.mVelSetPoint =
      (CONTROLLER_loop K P U E l0 CONTROL_MODE_VELOCITY_RAMP velocity position
        s).2.mVelSetPoint := by
  refine ⟨?_, ?_, ?_, ?_⟩
  · intro h
    rw [loop_mCurrSetPoint, switchStage_current_ramp, h]
    simp [fabs, CLAMP_zero_range]
  · intro h
    rw [loop_mVelSetPoint, switchStage_velocity_ramp, loop_mCurrSetPoint,
      switchStage_velocity_ramp_current, h]
    simp [fabs, CLAMP_zero_range]
  · rw [loop_mCurrSetPoint, switchStage_current_ramp, loop_mCurrSetPoint,
      switchStage_current_ramp]
    simp [fabs]
  · rw [loop_mVelSetPoint, switchStage_velocity_ramp, loop_mVelSetPoint,
      switchStage_velocity_ramp]
    simp [fabs]

/-- C14 (witness): with both ramp rates 0 and tick period 0.01, a Current-Ramp
tick towards the target 10 leaves `mCurrSetPoint` at 0. -/
theorem C14_zero_rate_no_motion_witness :
    exConsts.DT ≠ 0 ∧ exConfigZeroRate.current_ramp_rate = 0 ∧
    (CONTROLLER_loop exConsts exPlanner exConfigZeroRate exEnv exLocals
        CONTROL_MODE_CURRENT_RAMP 0 0 exStateDemand).2.mCurrSetPoint =
      exStateDemand.mCurrSetPoint :=
  ⟨by norm_num [exConsts], by decide,
   (C14_zero_rate_no_motion exConsts exPlanner exConfigZeroRate exEnv exLocals 0 0
      exStateDemand (by norm_num [exConsts])).1 (by decide)⟩

/-! ## Further helper lemmas: what a tick reads of the environment -/

/-- The trapezoidal case reads only the position estimate of the environment. -/
theorem trapCase_env (K : Consts) (P : Planner) (U : UsrConfigStruct) (E1 E2 : Env)
    (s : State) (hpos : E1.pos_estimate_ = E2.pos_estimate_) :
    trapCase K P U E1 s = trapCase K P U E2 s := by
  unfold trapCase
  rw [hpos]

/-- The switch reads only the position estimate of the environment. -/
theorem switchStage_env (K : Consts) (P : Planner) (U : UsrConfigStruct) (E1 E2 : Env)
    (control_mode : Int) (s : State) (l : Locals)
    (hpos : E1.pos_estimate_ = E2.pos_estimate_) :
    switchStage K P U E1 control_mode s l = switchStage K P U E2 control_mode s l := by
  unfold switchStage
  rw [trapCase_env K P U E1 E2 s hpos]

/-- The stages before the anticogging stage do not read `anticogging_enable`. -/
theorem stages_ignore_enable (K : Consts) (P : Planner) (U : UsrConfigStruct) (E : Env)
    (b : Bool) (control_mode : Int) (velocity position : ℚ) (s : State) (l : Locals) :
    switchStage K P { U with anticogging_enable := b } E control_mode s l =
        switchStage K P U E control_mode s l ∧
    (∀ s1 l1, positionStage { U with anticogging_enable := b } position s1 l1 =
        positionStage U position s1 l1) ∧
    (∀ s1 l1, velocityStage { U with anticogging_enable := b } velocity s1 l1 =
        velocityStage U velocity s1 l1) ∧
    (∀ s1 l1, limitStage K { U with anticogging_enable := b } s1 l1 = limitStage K U s1 l1) :=
  ⟨rfl, fun _ _ => rfl, fun _ _ => rfl, fun _ _ => rfl⟩

/-- The anticogging stage does nothing unless it is enabled and the table valid. -/
theorem anticoggingStage_off (K : Consts) (U : UsrConfigStruct) (E : Env) (l : Locals)
    (hoff : (U.anticogging_enable && E.AnticoggingValid) = false) :
    anticoggingStage K U E l = l := by
  simp [anticoggingStage, hoff]

/-! ## C15: the compensator is a no-op when disabled or invalid -/

/-- C15: for every mode, state and input, and environments that agree on the
encoder's position estimate: when `anticogging_enable` is false, the output and
the state after a tick are the same whatever the validity flag, the table contents
and the raw encoder count are; and when the table is invalid, the tick is the same
whatever the table contents, the raw count and the value of `anticogging_enable`
are. -/
theorem C15_anticogging_noop (K : Consts) (P : Planner) (U : UsrConfigStruct) (E1 E2 : Env)
    (l0 : Locals) (control_mode : Int) (velocity position : ℚ) (s : State)
    (hpos : E1.pos_estimate_ = E2.pos_estimate_) :
    (U.anticogging_enable = false →
      CONTROLLER_loop K P U E1 l0 control_mode velocity position s =
        CONTROLLER_loop K P U E2 l0 control_mode velocity position s) ∧
    (E1.AnticoggingValid = false → E2.AnticoggingValid = false →
      ∀ b : Bool,
        CONTROLLER_loop K P U E1 l0 control_mode velocity position s =
          CONTROLLER_loop K P { U with anticogging_enable := b } E2 l0 control_mode
            velocity position s) := by
  constructor
  · intro h
    have h1 : (U.anticogging_enable && E1.AnticoggingValid) = false := by simp [h]
    have h2 : (U.anticogging_enable && E2.AnticoggingValid) = false := by simp [h]
    simp only [CONTROLLER_loop, preLimit, anticoggingStage_off K U E1 _ h1,
      anticoggingStage_off K U E2 _ h2, switchStage_env K P U E1 E2 control_mode s l0 hpos]
  · intro hv1 hv2 b
    have h1 : (U.anticogging_enable && E1.AnticoggingValid) = false := by simp [hv1]
    have h2 : (({ U with anticogging_enable := b } : UsrConfigStruct).anticogging_enable
        && E2.AnticoggingValid) = false := by simp [hv2]
    have hs := stages_ignore_enable K P U E2 b control_mode velocity position s l0
    simp only [CONTROLLER_loop, preLimit, anticoggingStage_off K U E1 _ h1,
      anticoggingStage_off K _ E2 _ h2, switchStage_env K P U E1 E2 control_mode s l0 hpos,
      hs.1, hs.2.1, hs.2.2.1, hs.2.2.2]

/-- C15 (witness): with anticogging disabled, a Velocity-mode tick gives the same
output and state with the invalid all-zero table and with a valid table of sevens
at raw count 8192. -/
theorem C15_anticogging_noop_witness :
    exEnv.pos_estimate_ = exEnvCogging.pos_estimate_ ∧
    exConfigVelocity.anticogging_enable = false ∧
    CONTROLLER_loop exConsts exPlanner exConfigVelocity exEnv exLocals CONTROL_MODE_VELOCITY
        1 0 exStateDemand =
      CONTROLLER_loop exConsts exPlanner exConfigVelocity exEnvCogging exLocals
        CONTROL_MODE_VELOCITY 1 0 exStateDemand :=
  ⟨by decide, by decide,
   (C15_anticogging_noop exConsts exPlanner exConfigVelocity exEnv exEnvCogging exLocals
      CONTROL_MODE_VELOCITY 1 0 exStateDemand (by decide)).1 (by decide)⟩

/-! ## C16: the cascade formula in Position mode -/

/-- C16: with the mode argument and the configured control mode both Position and
anticogging not applied, one tick sets `mPosSetPoint := input_position`; its raw
current demand is `mCurrSetPoint + vel_gain * (vd - measured_velocity) +
vel_integrator` with `vd = CLAMP (mVelSetPoint + pos_gain * (input_position -
measured_position)) (-vel_limit) vel_limit`, all three taken before the tick; and
it returns that demand limited to `±current_limit` (the limit itself beyond it, the
demand otherwise), which for `current_limit ≥ 0` is `CLAMP` of the demand. -/
theorem C16_position_cascade_formula (K : Consts) (P : Planner) (U : UsrConfigStruct)
    (E : Env) (l0 : Locals) (velocity position : ℚ) (s : State)
    (hcfg : U.control_mode = CONTROL_MODE_POSITION)
    (hcog : (U.anticogging_enable && E.AnticoggingValid) = false) :
    (CONTROLLER_loop K P U E l0 CONTROL_MODE_POSITION velocity position s).2.mPosSetPoint =
      s.Controller.input_position ∧
    rawDemand K P U E l0 CONTROL_MODE_POSITION velocity position s =
      positionCascade U velocity position s ∧
    (CONTROLLER_loop K P U E l0 CONTROL_MODE_POSITION velocity position s).1 =
      (if positionCascade U velocity position s < -U.current_limit then -U.current_limit
       else if U.current_limit < positionCascade U velocity position s then U.current_limit
       else positionCascade U velocity position s) ∧
    (0 ≤ U.current_limit →
      (CONTROLLER_loop K P U E l0 CONTROL_MODE_POSITION velocity position s).1 =
        CLAMP (positionCascade U velocity position s) (-U.current_limit) U.current_limit) := by
  have hp : U.control_mode ≥ CONTROL_MODE_POSITION := le_of_eq hcfg.symm
  have hv : U.control_mode ≥ CONTROL_MODE_VELOCITY := by
    rw [hcfg]
    decide
  have hsw : switchStage K P U E CONTROL_MODE_POSITION s l0 =
      ({ s with mPosSetPoint := s.Controller.input_position }, l0) := by
    simp [switchStage, CONTROL_MODE_POSITION, CONTROL_MODE_CURRENT, CONTROL_MODE_CURRENT_RAMP,
      CONTROL_MODE_VELOCITY, CONTROL_MODE_VELOCITY_RAMP]
  have hraw : rawDemand K P U E l0 CONTROL_MODE_POSITION velocity position s =
      positionCascade U velocity position s := by
    simp only [rawDemand, preLimit, hsw, positionStage, velocityStage, if_pos hp, if_pos hv,
      anticoggingStage_off K U E _ hcog, positionCascade]
  have hout : (CONTROLLER_loop K P U E l0 CONTROL_MODE_POSITION velocity position s).1 =
      (if positionCascade U velocity position s < -U.current_limit then -U.current_limit
       else if U.current_limit < positionCascade U velocity position s then U.current_limit
       else positionCascade U velocity position s) := by
    have h : (CONTROLLER_loop K P U E l0 CONTROL_MODE_POSITION velocity position s).1 =
        (limitStage K U (preLimit K P U E l0 CONTROL_MODE_POSITION velocity position s).1
          (preLimit K P U E l0 CONTROL_MODE_POSITION velocity position s).2).1 := rfl
    rw [h]
    unfold limitStage
    rw [show (preLimit K P U E l0 CONTROL_MODE_POSITION velocity position s).2.current_des =
      positionCascade U velocity position s from hraw]
    split_ifs <;> rfl
  refine ⟨?_, hraw, hout, ?_⟩
  · rw [loop_mPosSetPoint, hsw]
  · intro hlimit
    rw [hout, CLAMP_eq_ite _ _ _ (by linarith)]

/-- C16 (witness): configured and argument mode Position, gains 1, limits 5 and
10, from the stale example state with measured velocity 1 and position 38. -/
theorem C16_position_cascade_formula_witness :
    (exConfigPosition.control_mode = CONTROL_MODE_POSITION ∧
      (exConfigPosition.anticogging_enable && exEnv.AnticoggingValid) = false) ∧
    ((CONTROLLER_loop exConsts exPlanner exConfigPosition exEnv exLocals CONTROL_MODE_POSITION
        1 38 exStateStale).2.mPosSetPoint = exStateStale.Controller.input_position ∧
     rawDemand exConsts exPlanner exConfigPosition exEnv exLocals CONTROL_MODE_POSITION
        1 38 exStateStale = positionCascade exConfigPosition 1 38 exStateStale ∧
     (CONTROLLER_loop exConsts exPlanner exConfigPosition exEnv exLocals CONTROL_MODE_POSITION
        1 38 exStateStale).1 =
      (if positionCascade exConfigPosition 1 38 exStateStale < -exConfigPosition.current_limit
        then -exConfigPosition.current_limit
       else if exConfigPosition.current_limit < positionCascade exConfigPosition 1 38 exStateStale
        then exConfigPosition.current_limit
       else positionCascade exConfigPosition 1 38 exStateStale) ∧
     ((0 : ℚ) ≤ exConfigPosition.current_limit →
      (CONTROLLER_loop exConsts exPlanner exConfigPosition exEnv exLocals CONTROL_MODE_POSITION
        1 38 exStateStale).1 =
        CLAMP (positionCascade exConfigPosition 1 38 exStateStale)
          (-exConfigPosition.current_limit) exConfigPosition.current_limit)) :=
  ⟨⟨by decide, by decide⟩,
   C16_position_cascade_formula exConsts exPlanner exConfigPosition exEnv exLocals 1 38
     exStateStale (by decide) (by decide)⟩

/-! ## C17: integrator accumulation -/

/-- C17: in Velocity, Velocity-Ramp, Position and Position-Trapezoidal mode (the
mode argument equal to the configured control mode), for every tick whose raw
(pre-clamp) current demand lies within `±current_limit`, the integrator after the
tick is its value before plus `vel_integrator_gain * DT * v_err`, where `v_err` is
the velocity demand minus the measured velocity, the very value that formed the
current demand of this tick: the demand is the current set-point plus
`vel_gain * v_err` plus the integrator (plus the anticogging term when applied),
and the velocity demand is the velocity set-point in the velocity modes and the
clamped position cascade in the position modes. -/
theorem C17_integrator_accumulation (K : Consts) (P : Planner) (U : UsrConfigStruct)
    (E : Env) (l0 : Locals) (control_mode : Int) (velocity position : ℚ) (s : State)
    (hmode : control_mode = CONTROL_MODE_VELOCITY ∨ control_mode = CONTROL_MODE_VELOCITY_RAMP ∨
      control_mode = CONTROL_MODE_POSITION ∨ control_mode = CONTROL_MODE_POSITION_TRAP)
    (hcfg : U.control_mode = control_mode)
    (hin : -U.current_limit ≤ rawDemand K P U E l0 control_mode velocity position s ∧
      rawDemand K P U E l0 control_mode velocity position s ≤ U.current_limit) :
    (CONTROLLER_loop K P U E l0 control_mode velocity position s).2.vel_integrator =
      s.vel_integrator + U.vel_integrator_gain * K.DT *
        (preLimit K P U E l0 control_mode velocity position s).2.v_err ∧
    (preLimit K P U E l0 control_mode velocity position s).2.v_err =
      (preLimit K P U E l0 control_mode velocity position s).2.vel_des - velocity ∧
    (preLimit K P U E l0 control_mode velocity position s).2.vel_des =
      (if U.control_mode ≥ CONTROL_MODE_POSITION then
        CLAMP ((CONTROLLER_loop K P U E l0 control_mode velocity position s).2.mVelSetPoint +
            U.pos_gain *
              ((CONTROLLER_loop K P U E l0 control_mode velocity position s).2.mPosSetPoint
                - position))
          (-U.vel_limit) U.vel_limit
       else (CONTROLLER_loop K P U E l0 control_mode velocity position s).2.mVelSetPoint) ∧
    rawDemand K P U E l0 control_mode velocity position s =
      (CONTROLLER_loop K P U E l0 control_mode velocity position s).2.mCurrSetPoint +
        U.vel_gain * (preLimit K P U E l0 control_mode velocity position s).2.v_err +
        s.vel_integrator +
        (if U.anticogging_enable && E.AnticoggingValid then E.map (coggingIndex K E) else 0) := by
  have hv : U.control_mode ≥ CONTROL_MODE_VELOCITY := by
    rw [hcfg]
    rcases hmode with h | h | h | h <;> rw [h] <;> decide
  have hint : (switchStage K P U E control_mode s l0).1.vel_integrator = s.vel_integrator :=
    switchStage_vel_integrator K P U E control_mode s l0
  have hverr : (preLimit K P U E l0 control_mode velocity position s).2.v_err =
      (preLimit K P U E l0 control_mode velocity position s).2.vel_des - velocity := by
    simp only [preLimit, velocityStage, anticoggingStage, if_pos hv]
    split_ifs <;> rfl
  have hvdes : (preLimit K P U E l0 control_mode velocity position s).2.vel_des =
      (if U.control_mode ≥ CONTROL_MODE_POSITION then
        CLAMP ((switchStage K P U E control_mode s l0).1.mVelSetPoint +
            U.pos_gain * ((switchStage K P U E control_mode s l0).1.mPosSetPoint - position))
          (-U.vel_limit) U.vel_limit
       else (switchStage K P U E control_mode s l0).1.mVelSetPoint) := by
    by_cases hp : U.control_mode ≥ CONTROL_MODE_POSITION
    · simp only [preLimit, positionStage, velocityStage, anticoggingStage, if_pos hv, if_pos hp]
      split_ifs <;> rfl
    · have hsw : (switchStage K P U E control_mode s l0).2.vel_des =
          (switchStage K P U E control_mode s l0).1.mVelSetPoint := by
        rcases hmode with h | h | h | h
        · subst h
          simp [switchStage, CONTROL_MODE_VELOCITY, CONTROL_MODE_CURRENT,
            CONTROL_MODE_CURRENT_RAMP]
        · subst h
          simp [switchStage, CONTROL_MODE_VELOCITY, CONTROL_MODE_CURRENT,
            CONTROL_MODE_CURRENT_RAMP, CONTROL_MODE_VELOCITY_RAMP]
        · exact absurd (le_of_eq (h.symm.trans hcfg.symm)) hp
        · rw [hcfg, h] at hp
          exact absurd (by decide) hp
      simp only [preLimit, positionStage, velocityStage, anticoggingStage, if_pos hv, if_neg hp]
      split_ifs <;> exact hsw
  have hraw : rawDemand K P U E l0 control_mode velocity position s =
      (switchStage K P U E control_mode s l0).1.mCurrSetPoint +
        U.vel_gain * (preLimit K P U E l0 control_mode velocity position s).2.v_err +
        s.vel_integrator +
        (if U.anticogging_enable && E.AnticoggingValid then E.map (coggingIndex K E) else 0) := by
    rw [← hint]
    simp only [rawDemand, preLimit, velocityStage, anticoggingStage, coggingIndex, if_pos hv]
    split_ifs
    · rfl
    · exact (add_zero _).symm
  have hlim : (CONTROLLER_loop K P U E l0 control_mode velocity position s).2.vel_integrator =
      s.vel_integrator + U.vel_integrator_gain * K.DT *
        (preLimit K P U E l0 control_mode velocity position s).2.v_err := by
    have h1 : ¬ (preLimit K P U E l0 control_mode velocity position s).2.current_des <
        -U.current_limit := not_lt.mpr hin.1
    have h2 : ¬ (preLimit K P U E l0 control_mode velocity position s).2.current_des >
        U.current_limit := not_lt.mpr hin.2
    rw [← hint]
    simp only [CONTROLLER_loop, limitStage, if_neg h1, if_neg h2]
    rfl
  rw [loop_mVelSetPoint, loop_mPosSetPoint, loop_mCurrSetPoint]
  exact ⟨hlim, hverr, hvdes, hraw⟩

/-- C17 (witness): Velocity mode, unit gains, tick period 0.01, velocity demand
5 and measured velocity 1: the raw demand 4 is within the limit 10. -/
theorem C17_integrator_accumulation_witness :
    ((CONTROL_MODE_VELOCITY = CONTROL_MODE_VELOCITY ∨
        CONTROL_MODE_VELOCITY = CONTROL_MODE_VELOCITY_RAMP ∨
        CONTROL_MODE_VELOCITY = CONTROL_MODE_POSITION ∨
        CONTROL_MODE_VELOCITY = CONTROL_MODE_POSITION_TRAP) ∧
      exConfigVelocity.control_mode = CONTROL_MODE_VELOCITY ∧
      (-exConfigVelocity.current_limit ≤
          rawDemand exConsts exPlanner exConfigVelocity exEnv exLocals CONTROL_MODE_VELOCITY
            1 0 exStateDemand ∧
        rawDemand exConsts exPlanner exConfigVelocity exEnv exLocals CONTROL_MODE_VELOCITY
            1 0 exStateDemand ≤ exConfigVelocity.current_limit)) ∧
    (CONTROLLER_loop exConsts exPlanner exConfigVelocity exEnv exLocals CONTROL_MODE_VELOCITY
        1 0 exStateDemand).2.vel_integrator =
      exStateDemand.vel_integrator + exConfigVelocity.vel_integrator_gain * exConsts.DT *
        (preLimit exConsts exPlanner exConfigVelocity exEnv exLocals CONTROL_MODE_VELOCITY
          1 0 exStateDemand).2.v_err :=
  ⟨⟨by decide, by decide,
    by norm_num [rawDemand, preLimit, switchStage, positionStage, velocityStage,
      anticoggingStage, CLAMP, exConfigVelocity, exConfig, exStateDemand, exState, exLocals,
      exEnv, CONTROL_MODE_VELOCITY, CONTROL_MODE_CURRENT, CONTROL_MODE_CURRENT_RAMP,
      CONTROL_MODE_POSITION]⟩,
   (C17_integrator_accumulation exConsts exPlanner exConfigVelocity exEnv exLocals
      CONTROL_MODE_VELOCITY 1 0 exStateDemand (by decide) (by decide)
      (by norm_num [rawDemand, preLimit, switchStage, positionStage, velocityStage,
        anticoggingStage, CLAMP, exConfigVelocity, exConfig, exStateDemand, exState, exLocals,
        exEnv, CONTROL_MODE_VELOCITY, CONTROL_MODE_CURRENT, CONTROL_MODE_CURRENT_RAMP,
        CONTROL_MODE_POSITION])).1⟩

/-! ## Further helper lemmas: the trajectory clock -/

/-- In the tracking state with the elapsed time within the duration, the
trapezoidal case evaluates the curve and advances the clock if the error gate
permits. -/
theorem trapCase_tracking (K : Consts) (P : Planner) (U : UsrConfigStruct) (E : Env)
    (s : State) (hpend : s.input_pos_updated = false) (hdone : s.Traj.trajectory_done = false)
    (ht : s.Traj.t ≤ s.Traj.Tf_) :
    trapCase K P U E s =
      { s with
        mPosSetPoint := (P.eval s.Traj.profile s.Traj.t).1
        mVelSetPoint := (P.eval s.Traj.profile s.Traj.t).2.1
        mCurrSetPoint := (P.eval s.Traj.profile s.Traj.t).2.2 * U.inertia
        Traj :=
          { s.Traj with
            Y := (P.eval s.Traj.profile s.Traj.t).1
            Yd := (P.eval s.Traj.profile s.Traj.t).2.1
            Ydd := (P.eval s.Traj.profile s.Traj.t).2.2
            t := if fabs ((P.eval s.Traj.profile s.Traj.t).1 - E.pos_estimate_) < 1
              then s.Traj.t + K.DT else s.Traj.t } } := by
  simp only [trapCase, TRAJ_eval, hpend, hdone, Bool.false_eq_true, if_false,
    if_neg (not_lt.mpr ht)]
  split_ifs <;> rfl

/-- With no command pending and `DT ≥ 0` the trapezoidal case never turns the
clock back. -/
theorem trapCase_t_mono (K : Consts) (P : Planner) (U : UsrConfigStruct) (E : Env)
    (s : State) (hDT : 0 ≤ K.DT) (hpend : s.input_pos_updated = false) :
    s.Traj.t ≤ (trapCase K P U E s).Traj.t := by
  simp only [trapCase, TRAJ_eval, hpend, Bool.false_eq_true, if_false]
  split_ifs
  · exact le_refl _
  · exact le_refl _
  · exact le_add_of_nonneg_right hDT
  · exact le_refl _

/-- Over any run of Position-Trapezoidal ticks from a state with no command
pending, with `DT ≥ 0`, the elapsed time does not decrease. -/
theorem runTicks_trap_t_mono (K : Consts) (P : Planner) (U : UsrConfigStruct)
    (hDT : 0 ≤ K.DT) (ticks : List TickInput) :
    ∀ s : State, s.input_pos_updated = false →
      s.Traj.t ≤ (runTicks K P U CONTROL_MODE_POSITION_TRAP ticks s).Traj.t := by
  induction ticks with
  | nil =>
    intro s _
    exact le_refl _
  | cons i rest ih =>
    intro s hpend
    have h1 : s.Traj.t ≤ (CONTROLLER_loop K P U i.env i.locals CONTROL_MODE_POSITION_TRAP
        i.velocity i.position s).2.Traj.t := by
      rw [loop_Traj, switchStage_trap]
      exact trapCase_t_mono K P U i.env s hDT hpend
    have h2 : (CONTROLLER_loop K P U i.env i.locals CONTROL_MODE_POSITION_TRAP
        i.velocity i.position s).2.input_pos_updated = false := by
      rw [loop_input_pos_updated, switchStage_trap]
      exact trapCase_input_pos_updated K P U i.env s
    exact le_trans h1 (ih _ h2)

/-! ## C18: the error-gated trajectory clock -/

/-- C18: in a Position-Trapezoidal tick in the tracking state (not done, no
command pending) with elapsed time `t ≤ Tf_`, the set-points become
`(Y t, Yd t, Ydd t * inertia)` from the planned curve evaluated at `t`, and the
elapsed time after the tick is `t + DT` if `|Y t - Encoder.pos_estimate_| < 1` and
`t` otherwise.  Hence, for `DT ≥ 0`, over any run of such ticks with no new command
the elapsed time is non-decreasing. -/
theorem C18_error_gated_clock (K : Consts) (P : Planner) (U : UsrConfigStruct) (E : Env)
    (l0 : Locals) (velocity position : ℚ) (s : State)
    (hpend : s.input_pos_updated = false) (hdone : s.Traj.trajectory_done = false)
    (ht : s.Traj.t ≤ s.Traj.Tf_) :
    (CONTROLLER_loop K P U E l0 CONTROL_MODE_POSITION_TRAP velocity position s).2.mPosSetPoint =
      (P.eval s.Traj.profile s.Traj.t).1 ∧
    (CONTROLLER_loop K P U E l0 CONTROL_MODE_POSITION_TRAP velocity position s).2.mVelSetPoint =
      (P.eval s.Traj.profile s.Traj.t).2.1 ∧
    (CONTROLLER_loop K P U E l0 CONTROL_MODE_POSITION_TRAP velocity position s).2.mCurrSetPoint =
      (P.eval s.Traj.profile s.Traj.t).2.2 * U.inertia ∧
    (CONTROLLER_loop K P U E l0 CONTROL_MODE_POSITION_TRAP velocity position s).2.Traj.t =
      (if |(P.eval s.Traj.profile s.Traj.t).1 - E.pos_estimate_| < 1 then s.Traj.t + K.DT
       else s.Traj.t) ∧
    (0 ≤ K.DT → ∀ (ticks : List TickInput) (s0 : State), s0.input_pos_updated = false →
      s0.Traj.t ≤ (runTicks K P U CONTROL_MODE_POSITION_TRAP ticks s0).Traj.t) := by
  have htrap := trapCase_tracking K P U E s hpend hdone ht
  rw [loop_mPosSetPoint, loop_mVelSetPoint, loop_mCurrSetPoint, loop_Traj, switchStage_trap,
    htrap]
  exact ⟨rfl, rfl, rfl, rfl, fun hDT ticks s0 h0 => runTicks_trap_t_mono K P U hDT ticks s0 h0⟩

/-- C18 (witness): a tracking state at elapsed time 0 of a curve lasting 1, with
the curve at position 3 and the encoder at 5/2: the gate is open and the clock
advances from 0 to 0.01. -/
theorem C18_error_gated_clock_witness :
    (exStateTracking.input_pos_updated = false ∧
      exStateTracking.Traj.trajectory_done = false ∧
      exStateTracking.Traj.t ≤ exStateTracking.Traj.Tf_) ∧
    (CONTROLLER_loop exConsts exPlannerMoving exConfig exEnvNear exLocals
        CONTROL_MODE_POSITION_TRAP 0 0 exStateTracking).2.Traj.t =
      (if |(exPlannerMoving.eval exStateTracking.Traj.profile exStateTracking.Traj.t).1
          - exEnvNear.pos_estimate_| < 1
        then exStateTracking.Traj.t + exConsts.DT else exStateTracking.Traj.t) :=
  ⟨⟨by decide, by decide, by decide⟩,
   (C18_error_gated_clock exConsts exPlannerMoving exConfig exEnvNear exLocals 0 0
      exStateTracking (by decide) (by decide) (by decide)).2.2.2.1⟩

/-! ## C19: the compensation index -/

/-- A result within the range of a 32-bit `int` is held unchanged. -/
theorem wrapInt32_of_in_range (x : Int) (h0 : 0 ≤ x) (h1 : x ≤ 2147483647) :
    wrapInt32 x = x := by
  unfold wrapInt32
  omega

/-- C19 (counterexample): the bound fails for constants whose product overflows a
32-bit `int`.  With 3001 table entries, 1048576 counts per revolution and the raw
count 800000 (within `0 ≤ cnt < ENCODER_CPR`), the product `3000 * 800000 =
2400000000` exceeds `2147483647`, is held as `-1894967296`, and the index is
`-1807`. -/
theorem C19_counterexample_product_overflow :
    (0 < exConstsLarge.ENCODER_CPR ∧ 1 ≤ exConstsLarge.COGGING_MAP_NUM ∧
      0 ≤ exEnvOverflow.cnt ∧ exEnvOverflow.cnt < exConstsLarge.ENCODER_CPR) ∧
    coggingIndex exConstsLarge exEnvOverflow = -1807 ∧
    ¬ (0 ≤ coggingIndex exConstsLarge exEnvOverflow ∧
        coggingIndex exConstsLarge exEnvOverflow ≤ exConstsLarge.COGGING_MAP_NUM - 1) := by
  decide

/-- C19 (amended): with `ENCODER_CPR > 0`, `COGGING_MAP_NUM ≥ 1` and constants for
which the largest product does not overflow a 32-bit `int`,
`(COGGING_MAP_NUM - 1) * (ENCODER_CPR - 1) ≤ 2147483647`, for every raw encoder
count `0 ≤ cnt < ENCODER_CPR` the table index `(COGGING_MAP_NUM - 1) * cnt /
ENCODER_CPR` satisfies `0 ≤ index ≤ COGGING_MAP_NUM - 1`; it is the index the
anticogging stage reads the table at, and it equals the quotient of the exact
product. -/
theorem C19_cogging_index_in_range (K : Consts) (E : Env)
    (hcpr : 0 < K.ENCODER_CPR) (hnum : 1 ≤ K.COGGING_MAP_NUM)
    (hbound : (K.COGGING_MAP_NUM - 1) * (K.ENCODER_CPR - 1) ≤ 2147483647)
    (hcnt0 : 0 ≤ E.cnt) (hcnt1 : E.cnt < K.ENCODER_CPR) :
    0 ≤ coggingIndex K E ∧ coggingIndex K E ≤ K.COGGING_MAP_NUM - 1 ∧
    coggingIndex K E = (K.COGGING_MAP_NUM - 1) * E.cnt / K.ENCODER_CPR ∧
    (∀ (U : UsrConfigStruct) (l : Locals),
      (U.anticogging_enable && E.AnticoggingValid) = true →
      (anticoggingStage K U E l).current_des = l.current_des + E.map (coggingIndex K E)) := by
  have hn : 0 ≤ K.COGGING_MAP_NUM - 1 := by omega
  have hprod : 0 ≤ (K.COGGING_MAP_NUM - 1) * E.cnt := Int.mul_nonneg hn hcnt0
  have hle : (K.COGGING_MAP_NUM - 1) * E.cnt ≤ (K.COGGING_MAP_NUM - 1) * K.ENCODER_CPR :=
    Int.mul_le_mul_of_nonneg_left (le_of_lt hcnt1) hn
  have hmax : (K.COGGING_MAP_NUM - 1) * E.cnt ≤
      (K.COGGING_MAP_NUM - 1) * (K.ENCODER_CPR - 1) :=
    Int.mul_le_mul_of_nonneg_left (by omega) hn
  have hwrap : wrapInt32 ((K.COGGING_MAP_NUM - 1) * E.cnt) =
      (K.COGGING_MAP_NUM - 1) * E.cnt :=
    wrapInt32_of_in_range _ hprod (le_trans hmax hbound)
  have hidx : coggingIndex K E = (K.COGGING_MAP_NUM - 1) * E.cnt / K.ENCODER_CPR := by
    unfold coggingIndex
    rw [hwrap, Int.tdiv_eq_ediv hprod (le_of_lt hcpr)]
  refine ⟨?_, ?_, hidx, ?_⟩
  · rw [hidx]
    exact Int.ediv_nonneg hprod (le_of_lt hcpr)
  · rw [hidx]
    calc (K.COGGING_MAP_NUM - 1) * E.cnt / K.ENCODER_CPR
        ≤ (K.COGGING_MAP_NUM - 1) * K.ENCODER_CPR / K.ENCODER_CPR :=
          Int.ediv_le_ediv hcpr hle
      _ = K.COGGING_MAP_NUM - 1 := Int.mul_ediv_cancel _ (ne_of_gt hcpr)
  · intro U l hon
    simp [anticoggingStage, hon]

/-- C19 (witness): 16384 counts per revolution, 128 table entries (largest
product `127 * 16383 = 2080641`) and the raw count 16383. -/
theorem C19_cogging_index_in_range_witness :
    (0 < exConsts.ENCODER_CPR ∧ 1 ≤ exConsts.COGGING_MAP_NUM ∧
      (exConsts.COGGING_MAP_NUM - 1) * (exConsts.ENCODER_CPR - 1) ≤ 2147483647 ∧
      0 ≤ exEnvLastCount.cnt ∧ exEnvLastCount.cnt < exConsts.ENCODER_CPR) ∧
    (0 ≤ coggingIndex exConsts exEnvLastCount ∧
      coggingIndex exConsts exEnvLastCount ≤ exConsts.COGGING_MAP_NUM - 1) :=
  ⟨⟨by decide, by decide, by decide, by decide, by decide⟩,
   ⟨(C19_cogging_index_in_range exConsts exEnvLastCount (by decide) (by decide) (by decide)
      (by decide) (by decide)).1,
    (C19_cogging_index_in_range exConsts exEnvLastCount (by decide) (by decide) (by decide)
      (by decide) (by decide)).2.1⟩⟩

/-! ## Further helper lemmas: convergence of the ramps -/

/-- After a step clamped to `±m`, what is left of the full step `d` has length
`max 0 (|d| - m)`. -/
theorem CLAMP_dist (d m : ℚ) (hm : 0 ≤ m) : |d - CLAMP d (-m) m| = max 0 (|d| - m) := by
  rw [CLAMP_eq_ite d (-m) m (by linarith)]
  split_ifs with h1 h2
  · have hd : d < 0 := by linarith
    rw [abs_of_neg hd, abs_of_nonpos (by linarith : d - -m ≤ 0), max_eq_right (by linarith)]
    ring
  · have hd : 0 < d := by linarith
    rw [abs_of_pos hd, abs_of_nonneg (by linarith : 0 ≤ d - m), max_eq_right (by linarith)]
  · have hd : |d| ≤ m := abs_le.mpr ⟨not_lt.mp h1, not_lt.mp h2⟩
    rw [sub_self, abs_zero, max_eq_left (by linarith)]

theorem max_zero_sub_sub (a b c : ℚ) (hc : 0 ≤ c) :
    max 0 (max 0 (a - b) - c) = max 0 (a - (c + b)) := by
  rcases le_total 0 (a - b) with h | h
  · rw [max_eq_right h]
    congr 1
    ring
  · rw [max_eq_left h, max_eq_left (by linarith), max_eq_left (by linarith)]

/-- The switch never writes the demand inputs `Controller`. -/
theorem switchStage_Controller (K : Consts) (P : Planner) (U : UsrConfigStruct) (E : Env)
    (control_mode : Int) (s : State) (l : Locals) :
    (switchStage K P U E control_mode s l).1.Controller = s.Controller := by
  have htrap : (trapCase K P U E s).Controller = s.Controller := by
    simp only [trapCase, move_to_pos, TRAJ_plan, TRAJ_eval]
    split_ifs <;> rfl
  unfold switchStage
  simp only []
  split_ifs
  · rfl
  · rfl
  · rfl
  · rfl
  · rfl
  · exact htrap
  · rfl

/-- One Current-Ramp tick in terms of the target and the maximal step. -/
theorem loop_current_ramp (K : Consts) (P : Planner) (U : UsrConfigStruct) (E : Env)
    (l0 : Locals) (velocity position : ℚ) (s : State) :
    (CONTROLLER_loop K P U E l0 CONTROL_MODE_CURRENT_RAMP velocity position s).2.mCurrSetPoint =
      s.mCurrSetPoint +
        CLAMP (targetCurrent U s - s.mCurrSetPoint) (-maxStepCurrent K U) (maxStepCurrent K U) ∧
    targetCurrent U
        (CONTROLLER_loop K P U E l0 CONTROL_MODE_CURRENT_RAMP velocity position s).2 =
      targetCurrent U s := by
  constructor
  · rw [loop_mCurrSetPoint, switchStage_current_ramp]
    rfl
  · unfold targetCurrent
    rw [loop_Controller, switchStage_Controller]

/-- One Velocity-Ramp tick in terms of the target and the maximal step. -/
theorem loop_velocity_ramp (K : Consts) (P : Planner) (U : UsrConfigStruct) (E : Env)
    (l0 : Locals) (velocity position : ℚ) (s : State) :
    (CONTROLLER_loop K P U E l0 CONTROL_MODE_VELOCITY_RAMP velocity position s).2.mVelSetPoint =
      s.mVelSetPoint +
        CLAMP (targetVelocity U s - s.mVelSetPoint) (-maxStepVelocity K U)
          (maxStepVelocity K U) ∧
    targetVelocity U
        (CONTROLLER_loop K P U E l0 CONTROL_MODE_VELOCITY_RAMP velocity position s).2 =
      targetVelocity U s := by
  constructor
  · rw [loop_mVelSetPoint, switchStage_velocity_ramp]
    rfl
  · unfold targetVelocity
    rw [loop_Controller, switchStage_Controller]

/-- The distance left after moving from `x` towards `T` by a step clamped to `±m`. -/
theorem ramp_dist (x T m : ℚ) (hm : 0 ≤ m) :
    |T - (x + CLAMP (T - x) (-m) m)| = max 0 (|T - x| - m) := by
  rw [← CLAMP_dist (T - x) m hm]
  congr 1
  ring

/-- The distance to the current target after a run of Current-Ramp ticks. -/
theorem runTicks_current_ramp_dist (K : Consts) (P : Planner) (U : UsrConfigStruct)
    (ticks : List TickInput) :
    ∀ s : State,
      |targetCurrent U s - (runTicks K P U CONTROL_MODE_CURRENT_RAMP ticks s).mCurrSetPoint| =
        max 0 (|targetCurrent U s - s.mCurrSetPoint| - ticks.length * maxStepCurrent K U) := by
  have hm : 0 ≤ maxStepCurrent K U := abs_nonneg _
  induction ticks with
  | nil =>
    intro s
    simp [runTicks]
  | cons i rest ih =>
    intro s
    have hstep := loop_current_ramp K P U i.env i.locals i.velocity i.position s
    have hrest := ih (CONTROLLER_loop K P U i.env i.locals CONTROL_MODE_CURRENT_RAMP
      i.velocity i.position s).2
    rw [hstep.2, hstep.1, ramp_dist _ _ _ hm] at hrest
    have hlen : (0 : ℚ) ≤ (rest.length : ℚ) * maxStepCurrent K U :=
      mul_nonneg (Nat.cast_nonneg _) hm
    have h := max_zero_sub_sub |targetCurrent U s - s.mCurrSetPoint| (maxStepCurrent K U)
      ((rest.length : ℚ) * maxStepCurrent K U) hlen
    show |targetCurrent U s - (runTicks K P U CONTROL_MODE_CURRENT_RAMP rest _).mCurrSetPoint| = _
    rw [hrest, h, List.length_cons]
    congr 2
    push_cast
    ring

/-- The distance to the velocity target after a run of Velocity-Ramp ticks. -/
theorem runTicks_velocity_ramp_dist (K : Consts) (P : Planner) (U : UsrConfigStruct)
    (ticks : List TickInput) :
    ∀ s : State,
      |targetVelocity U s - (runTicks K P U CONTROL_MODE_VELOCITY_RAMP ticks s).mVelSetPoint| =
        max 0 (|targetVelocity U s - s.mVelSetPoint| - ticks.length * maxStepVelocity K U) := by
  have hm : 0 ≤ maxStepVelocity K U := abs_nonneg _
  induction ticks with
  | nil =>
    intro s
    simp [runTicks]
  | cons i rest ih =>
    intro s
    have hstep := loop_velocity_ramp K P U i.env i.locals i.velocity i.position s
    have hrest := ih (CONTROLLER_loop K P U i.env i.locals CONTROL_MODE_VELOCITY_RAMP
      i.velocity i.position s).2
    rw [hstep.2, hstep.1, ramp_dist _ _ _ hm] at hrest
    have hlen : (0 : ℚ) ≤ (rest.length : ℚ) * maxStepVelocity K U :=
      mul_nonneg (Nat.cast_nonneg _) hm
    have h := max_zero_sub_sub |targetVelocity U s - s.mVelSetPoint| (maxStepVelocity K U)
      ((rest.length : ℚ) * maxStepVelocity K U) hlen
    show |targetVelocity U s - (runTicks K P U CONTROL_MODE_VELOCITY_RAMP rest _).mVelSetPoint| = _
    rw [hrest, h, List.length_cons]
    congr 2
    push_cast
    ring

/-- Once `n` maximal steps cover the distance, nothing is left of it. -/
theorem dist_zero_of_ceil_le (a m : ℚ) (n : ℕ) (hm : 0 < m) (hn : ⌈a / m⌉₊ ≤ n) :
    max 0 (a - n * m) = 0 := by
  have h1 : a / m ≤ n := Nat.ceil_le.mp hn
  have h2 : a ≤ n * m := (div_le_iff₀ hm).mp h1
  exact max_eq_left (by linarith)

/-- Moving from `x` towards `T` by a step clamped to `±m` never passes `T`, and
lands on `T` once `T` is within `m`. -/
theorem ramp_no_overshoot (x T m : ℚ) (hm : 0 ≤ m) :
    (x ≤ T → x + CLAMP (T - x) (-m) m ≤ T) ∧
    (T ≤ x → T ≤ x + CLAMP (T - x) (-m) m) ∧
    (|T - x| ≤ m → x + CLAMP (T - x) (-m) m = T) := by
  have h := CLAMP_step_between (T - x) m hm
  refine ⟨?_, ?_, ?_⟩
  · intro hx
    linarith [(h.1 (by linarith)).2]
  · intro hx
    linarith [(h.2 (by linarith)).1]
  · intro hd
    have hdist := ramp_dist x T m hm
    rw [max_eq_left (by linarith)] at hdist
    have h0 := abs_eq_zero.mp hdist
    linarith

/-! ## C20: the ramps never overshoot and converge -/

/-- C20: in Current-Ramp mode, with `target = CLAMP input_current (-current_limit)
current_limit` and `m = |DT * current_ramp_rate|`, the distance to the target after
a tick is `max 0 (|target - setpoint_before| - m)`; the set-point never passes the
target; it lands exactly on the target once within `m` of it; after any run of
ticks with the input constant the distance is `max 0 (|target - setpoint_before| -
n * m)`; and for `m > 0` every run of at least `⌈|target - setpoint_before| / m⌉`
ticks ends on the target.  The same holds in Velocity-Ramp mode for
`mVelSetPoint`, `input_velocity`, `vel_limit` and `vel_ramp_rate`. -/
theorem C20_ramps_converge (K : Consts) (P : Planner) (U : UsrConfigStruct) (E : Env)
    (l0 : Locals) (velocity position : ℚ) (s : State) :
   (|targetCurrent U s -
        (CONTROLLER_loop K P U E l0 CONTROL_MODE_CURRENT_RAMP velocity position s).2.mCurrSetPoint| =
      max 0 (|targetCurrent U s - s.mCurrSetPoint| - maxStepCurrent K U) ∧
    (s.mCurrSetPoint ≤ targetCurrent U s →
      (CONTROLLER_loop K P U E l0 CONTROL_MODE_CURRENT_RAMP velocity position s).2.mCurrSetPoint ≤
        targetCurrent U s) ∧
    (targetCurrent U s ≤ s.mCurrSetPoint →
      targetCurrent U s ≤
        (CONTROLLER_loop K P U E l0 CONTROL_MODE_CURRENT_RAMP velocity position s).2.mCurrSetPoint) ∧
    (|targetCurrent U s - s.mCurrSetPoint| ≤ maxStepCurrent K U →
      (CONTROLLER_loop K P U E l0 CONTROL_MODE_CURRENT_RAMP velocity position s).2.mCurrSetPoint =
        targetCurrent U s) ∧
    (∀ ticks : List TickInput,
      |targetCurrent U s - (runTicks K P U CONTROL_MODE_CURRENT_RAMP ticks s).mCurrSetPoint| =
        max 0 (|targetCurrent U s - s.mCurrSetPoint| - ticks.length * maxStepCurrent K U)) ∧
    (0 < maxStepCurrent K U → ∀ ticks : List TickInput,
      ⌈|targetCurrent U s - s.mCurrSetPoint| / maxStepCurrent K U⌉₊ ≤ ticks.length →
      (runTicks K P U CONTROL_MODE_CURRENT_RAMP ticks s).mCurrSetPoint = targetCurrent U s)) ∧
   (|targetVelocity U s -
        (CONTROLLER_loop K P U E l0 CONTROL_MODE_VELOCITY_RAMP velocity position s).2.mVelSetPoint| =
      max 0 (|targetVelocity U s - s.mVelSetPoint| - maxStepVelocity K U) ∧
    (s.mVelSetPoint ≤ targetVelocity U s →
      (CONTROLLER_loop K P U E l0 CONTROL_MODE_VELOCITY_RAMP velocity position s).2.mVelSetPoint ≤
        targetVelocity U s) ∧
    (targetVelocity U s ≤ s.mVelSetPoint →
      targetVelocity U s ≤
        (CONTROLLER_loop K P U E l0 CONTROL_MODE_VELOCITY_RAMP velocity position s).2.mVelSetPoint) ∧
    (|targetVelocity U s - s.mVelSetPoint| ≤ maxStepVelocity K U →
      (CONTROLLER_loop K P U E l0 CONTROL_MODE_VELOCITY_RAMP velocity position s).2.mVelSetPoint =
        targetVelocity U s) ∧
    (∀ ticks : List TickInput,
      |targetVelocity U s - (runTicks K P U CONTROL_MODE_VELOCITY_RAMP ticks s).mVelSetPoint| =
        max 0 (|targetVelocity U s - s.mVelSetPoint| - ticks.length * maxStepVelocity K U)) ∧
    (0 < maxStepVelocity K U → ∀ ticks : List TickInput,
      ⌈|targetVelocity U s - s.mVelSetPoint| / maxStepVelocity K U⌉₊ ≤ ticks.length →
      (runTicks K P U CONTROL_MODE_VELOCITY_RAMP ticks s).mVelSetPoint = targetVelocity U s)) := by
  constructor
  · have hm : 0 ≤ maxStepCurrent K U := abs_nonneg _
    have hstep := (loop_current_ramp K P U E l0 velocity position s).1
    have hno := ramp_no_overshoot s.mCurrSetPoint (targetCurrent U s) (maxStepCurrent K U) hm
    refine ⟨?_, ?_, ?_, ?_, ?_, ?_⟩
    · rw [hstep]
      exact ramp_dist _ _ _ hm
    · rw [hstep]
      exact hno.1
    · rw [hstep]
      exact hno.2.1
    · rw [hstep]
      exact hno.2.2
    · exact fun ticks => runTicks_current_ramp_dist K P U ticks s
    · intro hpos ticks hn
      have hd := runTicks_current_ramp_dist K P U ticks s
      rw [dist_zero_of_ceil_le _ _ _ hpos hn] at hd
      have h0 := abs_eq_zero.mp hd
      linarith
  · have hm : 0 ≤ maxStepVelocity K U := abs_nonneg _
    have hstep := (loop_velocity_ramp K P U E l0 velocity position s).1
    have hno := ramp_no_overshoot s.mVelSetPoint (targetVelocity U s) (maxStepVelocity K U) hm
    refine ⟨?_, ?_, ?_, ?_, ?_, ?_⟩
    · rw [hstep]
      exact ramp_dist _ _ _ hm
    · rw [hstep]
      exact hno.1
    · rw [hstep]
      exact hno.2.1
    · rw [hstep]
      exact hno.2.2
    · exact fun ticks => runTicks_velocity_ramp_dist K P U ticks s
    · intro hpos ticks hn
      have hd := runTicks_velocity_ramp_dist K P U ticks s
      rw [dist_zero_of_ceil_le _ _ _ hpos hn] at hd
      have h0 := abs_eq_zero.mp hd
      linarith

/-- C20 (witness): limit 10, `input_current = 15`, tick period 0.01, ramp rate 2,
set-point 9.97: the distance 0.03 needs `⌈0.03 / 0.02⌉ = 2` ticks, and after the
two example ticks the set-point is the target. -/
theorem C20_ramps_converge_witness :
    0 < maxStepCurrent exConsts exConfig ∧
    ⌈|targetCurrent exConfig exStateNearTarget - exStateNearTarget.mCurrSetPoint| /
        maxStepCurrent exConsts exConfig⌉₊ ≤ exTicks.length ∧
    (runTicks exConsts exPlanner exConfig CONTROL_MODE_CURRENT_RAMP exTicks
        exStateNearTarget).mCurrSetPoint = targetCurrent exConfig exStateNearTarget :=
  ⟨by norm_num [maxStepCurrent, fabs, abs_div, exConsts, exConfig],
   Nat.ceil_le.mpr (by
    norm_num [targetCurrent, maxStepCurrent, CLAMP, fabs, abs_div, exTicks, exConsts,
      exConfig, exStateNearTarget, exStateDemand, exState]),
   (C20_ramps_converge exConsts exPlanner exConfig exEnv exLocals 0 0
      exStateNearTarget).1.2.2.2.2.2
     (by norm_num [maxStepCurrent, fabs, abs_div, exConsts, exConfig]) exTicks
     (Nat.ceil_le.mpr (by
      norm_num [targetCurrent, maxStepCurrent, CLAMP, fabs, abs_div, exTicks, exConsts,
        exConfig, exStateNearTarget, exStateDemand, exState]))⟩

end Dgm
